import Mathlib

/-!
Verification development for the EnergyOptimizer dispatch decision engine.

The definitions below are a shallow embedding of the TypeScript sources
`client/src/lib/optimization-algorithm.ts` (namespace `OA`),
`client/src/lib/strategies/cost-optimization-strategy.ts` (namespace `CO`)
and the load-state store of `server/storage.ts` (namespace `Storage`).
All JavaScript numbers are modelled as rationals; a quarter-hour slot is the
literal `0.25 = 1/4`. Mutable loops of the source become structural
recursions or folds; early `break` and `return` become explicit branches.
Reason strings carried by decisions are dropped: no claim depends on them.
-/

set_option maxHeartbeats 1000000

namespace EnergyOpt

/-- JavaScript `Math.ceil` on a rational, as used by the lookahead horizon. -/
def jsCeil (q : ℚ) : ℤ := -(Rat.floor (-q))

/-- Trading signal values from `shared/schema.ts` (`standby`, `local`, `overrule`).
The `local` value is called `localSignal` here because `local` is a keyword. -/
inductive TradingSignal
  | standby
  | localSignal
  | overrule
deriving DecidableEq

/-- A calendar time, as much of a JavaScript `Date` as the engine reads:
the calendar day (`setHours(0,0,0,0)` comparisons), `getHours` and `getMinutes`. -/
structure SimTime where
  day : ℤ
  hour : ℕ
  minute : ℕ
deriving DecidableEq

/-- A PV inverter from the site configuration (`pvInverterSchema`). -/
structure PvInverter where
  id : String
  capacity : ℚ
  pricePerMWh : Option ℚ
  controllable : Bool
deriving DecidableEq

/-- Generation reported for one inverter (`pvInverterGenerationSchema`). -/
structure PvInverterGeneration where
  inverterId : String
  generation : ℚ
deriving DecidableEq

/-- One slot of the simulation series (`simulationDataPointSchema`), restricted
to the fields the decision engine reads. -/
structure SimulationDataPoint where
  time : SimTime
  injectionPrice : ℚ
  consumptionPrice : ℚ
  consumption : ℚ
  pvGeneration : ℚ
  pvForecast : ℚ
  pvInverterGenerations : List PvInverterGeneration
  soc : ℚ
  loadState : Bool
  tradingSignal : TradingSignal
  tradingSignalRequestedPower : ℚ
deriving DecidableEq

/-- Site configuration (`siteEnergyConfigSchema`), restricted to the fields
the decision engine reads. -/
structure SiteEnergyConfig where
  tradingSignalEnabled : Bool
  batteryCapacity : ℚ
  maxChargeRate : ℚ
  maxDischargeRate : ℚ
  minSoc : ℚ
  maxSoc : ℚ
  batteryRoundTripEfficiency : ℚ
  batteryMinPriceDifference : ℚ
  loadMinRuntimeActivation : ℚ
  loadMinRuntimeDaily : ℚ
  loadRuntimeDeadlineHour : ℕ
  loadActivationPower : ℚ
  loadNominalPower : ℚ
  gridCapacityImportLimit : ℚ
  gridCapacityExportLimit : ℚ
  pvInverters : List PvInverter
deriving DecidableEq

/-- Control decision of `optimization-algorithm.ts` (battery power, curtailment,
load state; the three reason strings are dropped). -/
structure ControlDecision where
  batteryPower : ℚ
  curtailment : ℚ
  loadState : Bool
deriving DecidableEq

/-- Control decision of `cost-optimization-strategy.ts` (battery power,
PV active power setpoint, load state). -/
structure StrategyDecision where
  batteryPower : ℚ
  pvActivePowerSetpoint : ℚ
  loadState : Bool
deriving DecidableEq

/-- Placeholder slot used for out-of-range list reads; the sources never read
out of range on the inputs considered here. -/
def defaultPoint : SimulationDataPoint :=
  { time := ⟨0, 0, 0⟩
    injectionPrice := 0
    consumptionPrice := 0
    consumption := 0
    pvGeneration := 0
    pvForecast := 0
    pvInverterGenerations := []
    soc := 0
    loadState := false
    tradingSignal := TradingSignal.localSignal
    tradingSignalRequestedPower := 0 }

/-- `getPvInverterGeneration` of `optimization-algorithm.ts`. -/
def getPvInverterGeneration (dataPoint : SimulationDataPoint) (inverterId : String) : ℚ :=
  match dataPoint.pvInverterGenerations.find? (fun gen => gen.inverterId == inverterId) with
  | some inverterData => inverterData.generation
  | none => 0

/-- The filter used by `getAffordablePvGeneration`: price undefined, or
strictly below the threshold. -/
def affordablePred (priceThreshold : ℚ) (inverter : PvInverter) : Bool :=
  match inverter.pricePerMWh with
  | none => true
  | some p => p < priceThreshold

/-- The filter used by `getExpensivePvGeneration`: price defined and at least
the threshold. -/
def expensivePred (priceThreshold : ℚ) (inverter : PvInverter) : Bool :=
  match inverter.pricePerMWh with
  | none => false
  | some p => priceThreshold ≤ p

/-- `getAffordablePvGeneration` of `optimization-algorithm.ts`: the loop
accumulating generation of inverters whose price is undefined or below the
threshold. -/
def getAffordablePvGeneration (dataPoint : SimulationDataPoint) (config : SiteEnergyConfig)
    (priceThreshold : ℚ) : ℚ :=
  config.pvInverters.foldl
    (fun totalGeneration inverter =>
      if affordablePred priceThreshold inverter then
        totalGeneration + getPvInverterGeneration dataPoint inverter.id
      else totalGeneration) 0

/-- `getExpensivePvGeneration` of `optimization-algorithm.ts`. -/
def getExpensivePvGeneration (dataPoint : SimulationDataPoint) (config : SiteEnergyConfig)
    (priceThreshold : ℚ) : ℚ :=
  config.pvInverters.foldl
    (fun totalGeneration inverter =>
      if expensivePred priceThreshold inverter then
        totalGeneration + getPvInverterGeneration dataPoint inverter.id
      else totalGeneration) 0

/-- The loop of both `getNegativePriceLookaheadHorizon` callers searching the
first slot index `i ≥ 1` (within the fuel) with a negative consumption price;
`-1` when none is found, mirroring the sentinel of the source. -/
def findNegSlotAux (forecast : List SimulationDataPoint) : ℕ → ℕ → ℤ
  | 0, _ => -1
  | k + 1, i =>
      if (forecast.getD i defaultPoint).consumptionPrice < 0 then (i : ℤ)
      else findNegSlotAux forecast k (i + 1)

/-- Search slots `1 .. lookaheadSlots` of the forecast for the first negative
consumption price. -/
def findNegSlot (forecast : List SimulationDataPoint) (lookaheadSlots : ℕ) : ℤ :=
  findNegSlotAux forecast lookaheadSlots 1

/-- `getNegativePriceLookaheadHorizon`, identical in both source files:
the number of slots needed to empty the battery at the maximal allowed
discharge power, capped by the available forecast. -/
def getNegativePriceLookaheadHorizon (current : SimulationDataPoint) (config : SiteEnergyConfig)
    (forecast : List SimulationDataPoint) : ℤ :=
  let socEnergy := current.soc / 100 * config.batteryCapacity
  let minEnergy := config.minSoc / 100 * config.batteryCapacity
  let allowedEnergy := socEnergy - minEnergy
  let maxDischargePower := min config.maxDischargeRate config.gridCapacityExportLimit
  let slotsToEmpty : ℤ :=
    if maxDischargePower > 0 then jsCeil (allowedEnergy / (maxDischargePower * (0.25 : ℚ)))
    else 0
  min slotsToEmpty ((forecast.length : ℤ) - 1)

/-- The slot selection of charge block 3 in both source files: take forecast
slots until (exclusive) the first one cheaper than now; when that prefix is
empty but the first slot is not cheaper, fall back to the whole lookahead. -/
def slotsToCheck (lookahead : List SimulationDataPoint) (currentPrice : ℚ) :
    List SimulationDataPoint :=
  match lookahead with
  | [] => []
  | first :: _ =>
      if first.consumptionPrice < currentPrice then []
      else
        let slotsUntilCheaper := lookahead.takeWhile (fun s => ¬ s.consumptionPrice < currentPrice)
        if slotsUntilCheaper ≠ [] then slotsUntilCheaper else lookahead

/-- One step of the deficit integration of charge block 3: a PV surplus feeds
the buffer (capped at the available battery capacity), a deficit is first
offset against the buffer. State is `(totalDeficit, pvSurplusBuffer)`. -/
def deficitStep (availableCapacity : ℚ) (st : ℚ × ℚ) (s : SimulationDataPoint) : ℚ × ℚ :=
  let net := s.consumption - s.pvForecast
  if net ≤ 0 then
    (st.1, min (st.2 + (-net) * (0.25 : ℚ)) availableCapacity)
  else
    (st.1 + max 0 (net * (0.25 : ℚ) - st.2), max 0 (st.2 - net * (0.25 : ℚ)))

/-- Block 4 of `shouldChargeNow`, identical in both source files: charge from
a PV surplus of affordable inverters, up to the charge rate. -/
def chargeBlok4 (current : SimulationDataPoint) (config : SiteEnergyConfig) : ℚ :=
  let affordablePvGeneration := getAffordablePvGeneration current config current.consumptionPrice
  let pvSurplus := affordablePvGeneration - current.consumption
  if pvSurplus > 0 then min pvSurplus config.maxChargeRate else 0

namespace OA

/-- `shouldChargeNow` of `optimization-algorithm.ts`. The unused `currentSlot`
parameter of the source is dropped. Returns the charge power (0 when not
charging); the reason strings of the source are dropped. -/
def shouldChargeNow (current : SimulationDataPoint) (config : SiteEnergyConfig)
    (forecast : List SimulationDataPoint) : ℚ :=
  -- Blok 1: maximal SoC check
  if current.soc ≥ config.maxSoc then 0
  -- Blok 2: negative price, charge at the maximal rate
  else if current.consumptionPrice < 0 then config.maxChargeRate
  else
    -- Blok 2.5: do not charge when a negative consumption price is coming
    let lookaheadSlots := getNegativePriceLookaheadHorizon current config forecast
    let negSlot := findNegSlot forecast lookaheadSlots.toNat
    if negSlot > 0 then 0
    else
      -- Blok 3: look 8 hours (32 slots) ahead for future deficits
      let lookahead := (forecast.drop 1).take 32
      let availableCapacity := (config.maxSoc - current.soc) / 100 * config.batteryCapacity
      let effectiveChargePrice := current.consumptionPrice / config.batteryRoundTripEfficiency
      let checked := slotsToCheck lookahead current.consumptionPrice
      let moreExpensiveSlots := checked.filter
        (fun s => s.consumptionPrice - effectiveChargePrice ≥ config.batteryMinPriceDifference)
      -- without sufficiently more expensive slots, fall through to Blok 4
      if moreExpensiveSlots = [] then chargeBlok4 current config
      else
        let totalDeficit := (moreExpensiveSlots.foldl (deficitStep availableCapacity) (0, 0)).1
        if totalDeficit > 0 then
          let energyInBattery := (current.soc - config.minSoc) / 100 * config.batteryCapacity
          let extraNeeded := max 0 (min (totalDeficit - energyInBattery) availableCapacity)
          min (extraNeeded / (0.25 : ℚ)) config.maxChargeRate
        else chargeBlok4 current config

/-- `shouldDischargeNow` of `optimization-algorithm.ts`. The unused
`currentSlot` and `loadState` parameters of the source are dropped. Returns
the discharge power as a nonnegative magnitude, as in the source. -/
def shouldDischargeNow (current : SimulationDataPoint) (config : SiteEnergyConfig)
    (forecast : List SimulationDataPoint) : ℚ :=
  -- 0: battery availability
  if current.soc ≤ config.minSoc then 0
  -- 1: no discharging at a negative price
  else if current.consumptionPrice < 0 then 0
  else
    -- 2: look ahead for a negative consumption price
    let lookaheadSlots := getNegativePriceLookaheadHorizon current config forecast
    let negSlot := findNegSlot forecast lookaheadSlots.toNat
    if negSlot > 0 ∧ current.injectionPrice > 0 then
      let socEnergy1 := current.soc / 100 * config.batteryCapacity
      let minEnergy1 := config.minSoc / 100 * config.batteryCapacity
      let allowedEnergy1 := socEnergy1 - minEnergy1
      let maxDischargePower := min config.maxDischargeRate config.gridCapacityExportLimit
      let maxDischarge := min maxDischargePower (allowedEnergy1 / (0.25 : ℚ))
      if maxDischarge > 0 then maxDischarge else 0
    else
      -- Blok 3: cover the current deficit, reserving for expensive hours ahead
      let deficit := max 0 (current.consumption - current.pvGeneration)
      if deficit ≤ 0 then 0
      else
        let lookahead := (forecast.drop 1).take 12
        let acc := lookahead.foldl
          (fun st slot =>
            let fd :=
              if slot.consumptionPrice > current.consumptionPrice then
                st.1 + max 0 (slot.consumption - slot.pvForecast) * (0.25 : ℚ)
              else st.1
            let ec :=
              if slot.pvForecast > slot.consumption then
                st.2 + min (slot.pvForecast - slot.consumption) config.maxChargeRate * (0.25 : ℚ)
              else st.2
            (fd, ec)) ((0 : ℚ), (0 : ℚ))
        let futureDeficit := acc.1
        let expectedCharge := acc.2
        let availableCapacity := (config.maxSoc - current.soc) / 100 * config.batteryCapacity
        let futureNeed := max 0 (futureDeficit - min expectedCharge availableCapacity)
        let socEnergy2 := current.soc / 100 * config.batteryCapacity
        let minEnergy2 := config.minSoc / 100 * config.batteryCapacity
        let allowedEnergy2 := socEnergy2 - minEnergy2 - futureNeed
        let maxPower := min (min deficit config.maxDischargeRate) (allowedEnergy2 / (0.25 : ℚ))
        if maxPower ≤ 0 then 0 else maxPower

end OA

/-- Same calendar day: the `setHours(0,0,0,0)` timestamp comparison of the
load schedulers. -/
def sameDay (a b : SimTime) : Prop := a.day = b.day

instance (a b : SimTime) : Decidable (sameDay a b) := by
  unfold sameDay
  infer_instance

/-- The deadline filter of the load schedulers: the slot hour is before the
deadline hour, or exactly at it with minute 0. -/
def beforeDeadline (t : SimTime) (deadlineHour : ℕ) : Prop :=
  t.hour < deadlineHour ∨ (t.hour = deadlineHour ∧ t.minute = 0)

instance (t : SimTime) (deadlineHour : ℕ) : Decidable (beforeDeadline t deadlineHour) := by
  unfold beforeDeadline
  infer_instance

/-- Stable insertion used to model the ascending JavaScript
`sort((a, b) => a.price - b.price)`: the inserted element passes only
elements with a strictly smaller key, so it lands before every equal-key
element already placed. Since `sortByKey` inserts from the last element
backward, equal keys keep their original order. -/
def insertByKey {α : Type} (key : α → ℚ) (x : α) : List α → List α
  | [] => [x]
  | y :: ys => if key y < key x then y :: insertByKey key x ys else x :: y :: ys

/-- Stable ascending sort by a rational key (JavaScript sorts are stable). -/
def sortByKey {α : Type} (key : α → ℚ) (l : List α) : List α :=
  l.foldr (insertByKey key) []

/-- The fill loop of the load schedulers: extend the selected slots with the
cheapest candidates, stopping once `minSlotsNeeded` is reached and skipping
indices that are already selected. -/
def fillSelected (minSlotsNeeded : ℚ) : List ℕ → List ℕ → List ℕ
  | [], selected => selected
  | c :: rest, selected =>
      if (selected.length : ℚ) ≥ minSlotsNeeded then selected
      else if selected.contains c then fillSelected minSlotsNeeded rest selected
      else fillSelected minSlotsNeeded rest (selected ++ [c])

/-- The shared tail of `determineLoadState` in both source files, from the
PV-oversupply count to the final priority cascade. `futureSlots` carries
`(slot index, slot)` pairs of the remaining slots of the day. -/
def loadCommon (config : SiteEnergyConfig) (current : SimulationDataPoint) (currentSlot : ℕ)
    (prevLoad : Bool) (activationRuntime runtimeTillNow : ℚ)
    (futureSlots : List (ℕ × SimulationDataPoint)) : Bool :=
  -- 1: slots whose affordable PV oversupply reaches the activation power
  let pvOversupplySlots :=
    (futureSlots.filter (fun p =>
      getAffordablePvGeneration p.2 config p.2.consumptionPrice - p.2.consumption - max 0 0
        ≥ config.loadActivationPower)).map (fun p => p.1)
  -- 2: slots still needed for the minimal daily runtime
  let minSlotsNeeded : ℚ := max 0 ((config.loadMinRuntimeDaily - runtimeTillNow) / (0.25 : ℚ))
  -- 3: cheapest slots of the day, PV-oversupply slots first
  let candidateSlots := (sortByKey (fun p => p.2.consumptionPrice) futureSlots).map (fun p => p.1)
  let selectedSlots :=
    if (pvOversupplySlots.length : ℚ) ≥ minSlotsNeeded then
      pvOversupplySlots.take (Rat.floor minSlotsNeeded).toNat
    else fillSelected minSlotsNeeded candidateSlots pvOversupplySlots
  if current.consumptionPrice < 0 then true
  else if prevLoad = true ∧ activationRuntime < config.loadMinRuntimeActivation then true
  else if selectedSlots.contains currentSlot ∧ minSlotsNeeded > 0 then true
  else false

namespace OA

/-- The backward loop of `determineLoadState` counting how many consecutive
slots ending at the given index have the load on in the data array. -/
def dataOnStreak (data : List SimulationDataPoint) : ℕ → ℕ
  | 0 => if (data.getD 0 defaultPoint).loadState then 1 else 0
  | i + 1 => if (data.getD (i + 1) defaultPoint).loadState then 1 + dataOnStreak data i else 0

/-- `determineLoadState` of `optimization-algorithm.ts`: runtime accumulators
read from the data array, slot gathering for today up to the deadline, then
the shared selection and priority cascade. The unused `batteryPower`
parameter of the source is dropped. -/
def determineLoadState (currentSlot : ℕ) (data : List SimulationDataPoint)
    (config : SiteEnergyConfig) (current : SimulationDataPoint) : Bool :=
  let prevLoad := if currentSlot > 0 then (data.getD (currentSlot - 1) defaultPoint).loadState
    else false
  let activationRuntime : ℚ :=
    if prevLoad then
      match currentSlot with
      | 0 => 0
      | i + 1 => (dataOnStreak data i : ℚ) * (0.25 : ℚ)
    else 0
  let runtimeTillNow : ℚ := (((data.take currentSlot).countP (fun p => p.loadState)) : ℚ) * (0.25 : ℚ)
  let slotsToday := data.enum.filter (fun p =>
    sameDay p.2.time current.time ∧ beforeDeadline p.2.time config.loadRuntimeDeadlineHour)
  let futureSlots := slotsToday.filter (fun p => p.1 ≥ currentSlot)
  loadCommon config current currentSlot prevLoad activationRuntime runtimeTillNow futureSlots

/-- `calculatePvCurtailment` of `optimization-algorithm.ts`: full curtailment
at a negative consumption price, curtail the excess above effective
consumption at a negative injection price, otherwise none. -/
def calculatePvCurtailment (current : SimulationDataPoint) (decision : ControlDecision)
    (config : SiteEnergyConfig) : ℚ :=
  if current.consumptionPrice < 0 then current.pvGeneration
  else if current.injectionPrice < 0 then
    let effectiveConsumption := current.consumption + decision.batteryPower +
      (if decision.loadState then config.loadNominalPower else 0)
    max 0 (current.pvGeneration - effectiveConsumption)
  else 0

/-- The load power term of `applyGridCapacityLimits`: nominal load power when
the load is on. -/
def gridLoadPower (loadState : Bool) (config : SiteEnergyConfig) : ℚ :=
  if loadState then config.loadNominalPower else 0

/-- `totalPowerFlow` of `applyGridCapacityLimits`: consumption plus load
power plus battery power minus PV generation plus curtailment. -/
def gridTotalPowerFlow (current : SimulationDataPoint) (decision : ControlDecision)
    (config : SiteEnergyConfig) : ℚ :=
  current.consumption + gridLoadPower decision.loadState config + decision.batteryPower
    - current.pvGeneration + decision.curtailment

/-- Import branch of `applyGridCapacityLimits`, battery step: reduce charging
by the excess import, down to zero. -/
def importBatteryPower (current : SimulationDataPoint) (decision : ControlDecision)
    (config : SiteEnergyConfig) : ℚ :=
  let excessImport := gridTotalPowerFlow current decision config - config.gridCapacityImportLimit
  if decision.batteryPower > 0 then
    decision.batteryPower - min excessImport decision.batteryPower
  else decision.batteryPower

/-- Import branch of `applyGridCapacityLimits`, load step: turn the load off
when `totalPowerFlow2` still exceeds the import limit. -/
def importLoadState (current : SimulationDataPoint) (decision : ControlDecision)
    (config : SiteEnergyConfig) : Bool :=
  let totalPowerFlow2 := current.consumption + gridLoadPower decision.loadState config
    + importBatteryPower current decision config - current.pvGeneration + decision.curtailment
  if decision.loadState = true ∧ totalPowerFlow2 > config.gridCapacityImportLimit then false
  else decision.loadState

/-- Import branch of `applyGridCapacityLimits`, curtailment step: decrease
curtailment by the remaining excess, down to zero. The source computes
`totalPowerFlow3` with the `loadPower` of the original decision even when
the load step has just turned the load off; that is embedded faithfully. -/
def importCurtailment (current : SimulationDataPoint) (decision : ControlDecision)
    (config : SiteEnergyConfig) : ℚ :=
  let totalPowerFlow3 := current.consumption + gridLoadPower decision.loadState config
    + importBatteryPower current decision config - current.pvGeneration + decision.curtailment
  let remainingExcess := totalPowerFlow3 - config.gridCapacityImportLimit
  if remainingExcess > 0 ∧ decision.curtailment > 0 then
    decision.curtailment - min remainingExcess decision.curtailment
  else decision.curtailment

/-- The import branch of `applyGridCapacityLimits`, assembled. -/
def importAdjust (current : SimulationDataPoint) (decision : ControlDecision)
    (config : SiteEnergyConfig) : ControlDecision :=
  { batteryPower := importBatteryPower current decision config
    curtailment := importCurtailment current decision config
    loadState := importLoadState current decision config }

/-- Export branch of `applyGridCapacityLimits`, battery step: increase
charging by the excess export, up to the charge rate. -/
def exportBatteryPower (current : SimulationDataPoint) (decision : ControlDecision)
    (config : SiteEnergyConfig) : ℚ :=
  let excessExport := |gridTotalPowerFlow current decision config|
    - config.gridCapacityExportLimit
  if decision.batteryPower < config.maxChargeRate then
    decision.batteryPower + min excessExport (config.maxChargeRate - decision.batteryPower)
  else decision.batteryPower

/-- Export branch of `applyGridCapacityLimits`, load step: turn the load on
when the recomputed export still exceeds the export limit. -/
def exportLoadState (current : SimulationDataPoint) (decision : ControlDecision)
    (config : SiteEnergyConfig) : Bool :=
  let totalPowerFlow2 := current.consumption + gridLoadPower decision.loadState config
    + exportBatteryPower current decision config - current.pvGeneration + decision.curtailment
  let exportPower2 := |min 0 totalPowerFlow2|
  if (¬ decision.loadState = true) ∧ exportPower2 > config.gridCapacityExportLimit then true
  else decision.loadState

/-- Export branch of `applyGridCapacityLimits`, curtailment step: increase
curtailment by the remaining excess, up to the PV generation; the flow is
recomputed with the adjusted load state. -/
def exportCurtailment (current : SimulationDataPoint) (decision : ControlDecision)
    (config : SiteEnergyConfig) : ℚ :=
  let totalPowerFlow3 := current.consumption
    + gridLoadPower (exportLoadState current decision config) config
    + exportBatteryPower current decision config - current.pvGeneration + decision.curtailment
  let exportPower3 := |min 0 totalPowerFlow3|
  let remainingExcess := exportPower3 - config.gridCapacityExportLimit
  if remainingExcess > 0 then
    decision.curtailment +
      min remainingExcess (max 0 (current.pvGeneration - decision.curtailment))
  else decision.curtailment

/-- The export branch of `applyGridCapacityLimits`, assembled. -/
def exportAdjust (current : SimulationDataPoint) (decision : ControlDecision)
    (config : SiteEnergyConfig) : ControlDecision :=
  { batteryPower := exportBatteryPower current decision config
    curtailment := exportCurtailment current decision config
    loadState := exportLoadState current decision config }

/-- `applyGridCapacityLimits` of `optimization-algorithm.ts`: the cascading
adjustment against the grid import and export limits. The single source
function is split here into one definition per adjusted field; the flow
recomputations of the source are inlined into each step. -/
def applyGridCapacityLimits (current : SimulationDataPoint) (decision : ControlDecision)
    (config : SiteEnergyConfig) : ControlDecision :=
  let totalPowerFlow := gridTotalPowerFlow current decision config
  if totalPowerFlow > 0 then
    if totalPowerFlow > config.gridCapacityImportLimit then
      importAdjust current decision config
    else decision
  else if totalPowerFlow < 0 then
    let exportPower := |totalPowerFlow|
    if exportPower > config.gridCapacityExportLimit then
      exportAdjust current decision config
    else decision
  else decision

/-- `controlCycle` of `optimization-algorithm.ts`: charge else discharge,
load state, curtailment, then the grid capacity pass. -/
def controlCycle (currentSlot : ℕ) (data : List SimulationDataPoint)
    (config : SiteEnergyConfig) : ControlDecision :=
  let current := data.getD currentSlot defaultPoint
  let horizon := min 48 (data.length - currentSlot)
  let forecast := (data.drop currentSlot).take horizon
  let chargePower := shouldChargeNow current config forecast
  let batteryPower :=
    if chargePower > 0 then chargePower
    else
      let dischargePower := shouldDischargeNow current config forecast
      if dischargePower > 0 then -dischargePower else 0
  let loadState := determineLoadState currentSlot data config current
  let decision1 : ControlDecision :=
    { batteryPower := batteryPower, curtailment := 0, loadState := loadState }
  let curtailment := calculatePvCurtailment current decision1 config
  let decision2 : ControlDecision :=
    { batteryPower := batteryPower, curtailment := curtailment, loadState := loadState }
  applyGridCapacityLimits current decision2 config

end OA

namespace Storage

/-- The load-state store of `server/storage.ts`, modelled as an explicit list
of `(slotIndex, loadState)` records. -/
def getLoadStateRecord (states : List (ℕ × Bool)) (i : ℕ) : Option (ℕ × Bool) :=
  states.find? (fun r => r.1 == i)

/-- `record && record.loadState`: the record for the slot exists and is on. -/
def recordOn (states : List (ℕ × Bool)) (i : ℕ) : Bool :=
  match getLoadStateRecord states i with
  | some r => r.2
  | none => false

/-- `getPreviousLoadState` of `server/storage.ts`. -/
def getPreviousLoadState (states : List (ℕ × Bool)) (currentSlot : ℕ) : Bool :=
  if currentSlot = 0 then false else recordOn states (currentSlot - 1)

/-- The backward loop of `getActivationRuntime`: consecutive on-records ending
at the given index. -/
def onStreak (states : List (ℕ × Bool)) : ℕ → ℕ
  | 0 => if recordOn states 0 then 1 else 0
  | i + 1 => if recordOn states (i + 1) then 1 + onStreak states i else 0

/-- `getActivationRuntime` of `server/storage.ts`: hours the load has been
continuously on, counting backward from the slot before the current one. -/
def getActivationRuntime (states : List (ℕ × Bool)) (currentSlot : ℕ) : ℚ :=
  match currentSlot with
  | 0 => 0
  | i + 1 => (onStreak states i : ℚ) * (0.25 : ℚ)

/-- `getTodayRuntime` of `server/storage.ts`. The source computes the start of
the current day but then counts every on-record before the current slot
regardless of its day; that is embedded faithfully, so the time parameter is
unused. -/
def getTodayRuntime (states : List (ℕ × Bool)) (currentSlot : ℕ) (_currentTime : SimTime) : ℚ :=
  (((List.range currentSlot).countP (fun i => recordOn states i)) : ℚ) * (0.25 : ℚ)

end Storage

namespace CO

/-- `getEffectiveConsumption` of `cost-optimization-strategy.ts`: consumption
plus the nominal load power when one is configured. -/
def getEffectiveConsumption (slot : SimulationDataPoint) (config : SiteEnergyConfig) : ℚ :=
  if config.loadNominalPower > 0 then slot.consumption + config.loadNominalPower
  else slot.consumption

/-- The forward scan of `optimizeNegativePriceCharging`: slots `1 ..` with a
negative consumption price, stopping at the first nonnegative price. -/
def scanNegative (forecast : List SimulationDataPoint) : ℕ → ℕ → List (ℕ × SimulationDataPoint)
  | 0, _ => []
  | k + 1, i =>
      let s := forecast.getD i defaultPoint
      if s.consumptionPrice < 0 then (i, s) :: scanNegative forecast k (i + 1) else []

/-- One step of the price grouping of `optimizeNegativePriceCharging`: slots
whose price is within 1 of the price of the open group join it, otherwise the
open group is closed and a new one opened. State is
`(closed groups, open group, open group price)`. -/
def groupStep
    (st : List (ℚ × List (ℕ × SimulationDataPoint)) × List (ℕ × SimulationDataPoint) × ℚ)
    (slot : ℕ × SimulationDataPoint) :
    List (ℚ × List (ℕ × SimulationDataPoint)) × List (ℕ × SimulationDataPoint) × ℚ :=
  let groups := st.1
  let currentGroup := st.2.1
  let currentPrice := st.2.2
  if |slot.2.consumptionPrice - currentPrice| < 1 then
    (groups, currentGroup ++ [slot], currentPrice)
  else
    ((if currentGroup ≠ [] then groups ++ [(currentPrice, currentGroup)] else groups),
      [slot], slot.2.consumptionPrice)

/-- The inner allocation loop of `optimizeNegativePriceCharging` over the
slots of one price group. State is `(remainingEnergy, currentSlotPower)`; the
loop breaks immediately when the group energy is not positive. -/
def allocGroupSlots (config : SiteEnergyConfig) (groupGridCapacity groupEnergy : ℚ) :
    List (ℕ × SimulationDataPoint) → ℚ × ℚ → ℚ × ℚ
  | [], st => st
  | slot :: rest, st =>
      if groupEnergy ≤ 0 then st
      else
        let effectiveConsumption := getEffectiveConsumption slot.2 config
        -- at negative prices PV is fully curtailed, so it is not subtracted
        let netConsumption := effectiveConsumption
        let availableGridCapacity := max 0 (config.gridCapacityImportLimit - netConsumption)
        let proportionalEnergy := availableGridCapacity / groupGridCapacity * groupEnergy
        let slotEnergy := min proportionalEnergy (availableGridCapacity * (0.25 : ℚ))
        let slotPower := slotEnergy / (0.25 : ℚ)
        let limitedSlotPower := min slotPower config.maxChargeRate
        let currentSlotPower := if slot.1 = 0 then limitedSlotPower else st.2
        allocGroupSlots config groupGridCapacity groupEnergy rest
          (st.1 - limitedSlotPower * (0.25 : ℚ), currentSlotPower)

/-- The outer allocation loop of `optimizeNegativePriceCharging` over the
price groups, cheapest first; it breaks once the remaining energy is not
positive. -/
def allocGroups (config : SiteEnergyConfig) :
    List (ℚ × List (ℕ × SimulationDataPoint)) → ℚ × ℚ → ℚ × ℚ
  | [], st => st
  | group :: rest, st =>
      if st.1 ≤ 0 then st
      else
        let groupGridCapacity := (group.2.map (fun slot =>
          max 0 (config.gridCapacityImportLimit - getEffectiveConsumption slot.2 config))).sum
        let groupEnergy := min st.1 (groupGridCapacity * (0.25 : ℚ))
        let st2 := allocGroupSlots config groupGridCapacity groupEnergy group.2 st
        allocGroups config rest st2

/-- `optimizeNegativePriceCharging` of `cost-optimization-strategy.ts`:
collect the contiguous run of negative-price slots, sort them by price, group
near-equal prices, and allocate battery headroom proportionally to the
grid-import headroom of each slot, cheapest group first. Returns the power for the
current slot. -/
def optimizeNegativePriceCharging (current : SimulationDataPoint) (config : SiteEnergyConfig)
    (forecast : List SimulationDataPoint) : ℚ :=
  let negativePriceSlots :=
    (if current.consumptionPrice < 0 then [((0 : ℕ), current)] else []) ++
      scanNegative forecast (min 32 (forecast.length - 1)) 1
  let sorted := sortByKey (fun p => p.2.consumptionPrice) negativePriceSlots
  let availableCapacity := (config.maxSoc - current.soc) / 100 * config.batteryCapacity
  let headPrice := (sorted.headD (0, defaultPoint)).2.consumptionPrice
  let grouped := sorted.foldl groupStep ([], [], headPrice)
  let priceGroups :=
    if grouped.2.1 ≠ [] then grouped.1 ++ [(grouped.2.2, grouped.2.1)] else grouped.1
  let result := allocGroups config priceGroups (availableCapacity, 0)
  let currentSlotPower := result.2
  if currentSlotPower ≤ 0 then 0 else currentSlotPower

/-- The forward scan of `calculateSpreadChargePower`: slots `1 ..` whose price
is within 5 of the current price, stopping at the first other price. -/
def scanSamePrice (forecast : List SimulationDataPoint) (currentPrice : ℚ) : ℕ → ℕ → List ℕ
  | 0, _ => []
  | k + 1, i =>
      if |(forecast.getD i defaultPoint).consumptionPrice - currentPrice| < 5 then
        i :: scanSamePrice forecast currentPrice k (i + 1)
      else []

/-- The allocation loop of `calculateSpreadChargePower` over
`(slot index, available capacity)` pairs. State is
`(remainingEnergy, currentSlotPower)`; the loop breaks once the remaining
energy is not positive. -/
def allocSpread (config : SiteEnergyConfig) (totalAvailableCapacity totalEnergyNeeded : ℚ) :
    List (ℕ × ℚ) → ℚ × ℚ → ℚ × ℚ
  | [], st => st
  | slot :: rest, st =>
      if st.1 ≤ 0 then st
      else
        let proportionalEnergy := slot.2 / totalAvailableCapacity * totalEnergyNeeded
        let slotEnergy := min (min proportionalEnergy st.1) (slot.2 * (0.25 : ℚ))
        let slotPower := slotEnergy / (0.25 : ℚ)
        let limitedSlotPower := min (min slotPower slot.2) config.maxChargeRate
        let currentSlotPower := if slot.1 = 0 then limitedSlotPower else st.2
        allocSpread config totalAvailableCapacity totalEnergyNeeded rest
          (st.1 - limitedSlotPower * (0.25 : ℚ), currentSlotPower)

/-- `calculateSpreadChargePower` of `cost-optimization-strategy.ts`: spread
the needed energy over the run of same-price slots proportionally to the
grid-import headroom of each slot; with no same-price slots or no headroom, charge
everything now up to the charge rate. -/
def calculateSpreadChargePower (totalEnergyNeeded : ℚ) (current : SimulationDataPoint)
    (forecast : List SimulationDataPoint) (config : SiteEnergyConfig) : ℚ :=
  let currentPrice := current.consumptionPrice
  let samePriceSlots := scanSamePrice forecast currentPrice (min 32 (forecast.length - 1)) 1
  if samePriceSlots = [] then min (totalEnergyNeeded / (0.25 : ℚ)) config.maxChargeRate
  else
    let currentNetConsumption := current.consumption - current.pvGeneration
    let currentAvailableCapacity :=
      max 0 (config.gridCapacityImportLimit - currentNetConsumption)
    let availableCapacities : List (ℕ × ℚ) :=
      ((0 : ℕ), currentAvailableCapacity) ::
        samePriceSlots.map (fun slotIndex =>
          let slot := forecast.getD slotIndex defaultPoint
          let netConsumption := slot.consumption - slot.pvForecast
          (slotIndex, max 0 (config.gridCapacityImportLimit - netConsumption)))
    let totalAvailableCapacity := (availableCapacities.map (fun p => p.2)).sum
    if totalAvailableCapacity ≤ 0 then min (totalEnergyNeeded / (0.25 : ℚ)) config.maxChargeRate
    else
      (allocSpread config totalAvailableCapacity totalEnergyNeeded availableCapacities
        (totalEnergyNeeded, 0)).2

/-- Blocks 1 to 4 of `shouldChargeNow` in `cost-optimization-strategy.ts`
(everything after the trading signal check). -/
def shouldChargeNowCore (current : SimulationDataPoint) (config : SiteEnergyConfig)
    (forecast : List SimulationDataPoint) : ℚ :=
  -- Blok 1: maximal SoC check
  if current.soc ≥ config.maxSoc then 0
  -- Blok 2: negative price, optimize charging over the negative-price run
  else if current.consumptionPrice < 0 then optimizeNegativePriceCharging current config forecast
  else
    -- Blok 2.5: do not charge when a negative consumption price is coming
    let lookaheadSlots := getNegativePriceLookaheadHorizon current config forecast
    let negSlot := findNegSlot forecast lookaheadSlots.toNat
    if negSlot > 0 then 0
    else
      -- Blok 3: look 8 hours (32 slots) ahead for future deficits
      let lookahead := (forecast.drop 1).take 32
      let availableCapacity := (config.maxSoc - current.soc) / 100 * config.batteryCapacity
      let effectiveChargePrice := current.consumptionPrice / config.batteryRoundTripEfficiency
      let checked := slotsToCheck lookahead current.consumptionPrice
      let moreExpensiveSlots := checked.filter
        (fun s => s.consumptionPrice - effectiveChargePrice ≥ config.batteryMinPriceDifference)
      -- without sufficiently more expensive slots, fall through to Blok 4
      if moreExpensiveSlots = [] then chargeBlok4 current config
      else
        let totalDeficit := (moreExpensiveSlots.foldl (deficitStep availableCapacity) (0, 0)).1
        if totalDeficit > 0 then
          let energyInBattery := (current.soc - config.minSoc) / 100 * config.batteryCapacity
          let extraNeededForFutureDeficit :=
            max 0 (min (totalDeficit - energyInBattery) availableCapacity)
          calculateSpreadChargePower extraNeededForFutureDeficit current forecast config
        else chargeBlok4 current config

/-- `shouldChargeNow` of `cost-optimization-strategy.ts`: the trading signal
check of block 0, then the shared charging logic. -/
def shouldChargeNow (current : SimulationDataPoint) (config : SiteEnergyConfig)
    (forecast : List SimulationDataPoint) : ℚ :=
  if config.tradingSignalEnabled then
    match current.tradingSignal with
    | TradingSignal.standby => 0
    | TradingSignal.overrule =>
        let requestedPower := current.tradingSignalRequestedPower
        if requestedPower > 0 then
          let maxChargePower := min requestedPower config.maxChargeRate
          if current.soc ≥ config.maxSoc then 0 else maxChargePower
        else if requestedPower < 0 then 0
        else 0
    | TradingSignal.localSignal => shouldChargeNowCore current config forecast
  else shouldChargeNowCore current config forecast

/-- Blocks 0 to 3 of `shouldDischargeNow` in `cost-optimization-strategy.ts`
after the trading signal check; identical to the discharge logic of
`optimization-algorithm.ts`. -/
def shouldDischargeNowCore (current : SimulationDataPoint) (config : SiteEnergyConfig)
    (forecast : List SimulationDataPoint) : ℚ :=
  OA.shouldDischargeNow current config forecast

/-- `shouldDischargeNow` of `cost-optimization-strategy.ts`: the trading
signal check of block 0, then the shared discharge logic. Returns the
discharge power as a nonnegative magnitude. -/
def shouldDischargeNow (current : SimulationDataPoint) (config : SiteEnergyConfig)
    (forecast : List SimulationDataPoint) : ℚ :=
  if config.tradingSignalEnabled then
    match current.tradingSignal with
    | TradingSignal.standby => 0
    | TradingSignal.overrule =>
        let requestedPower := current.tradingSignalRequestedPower
        if requestedPower < 0 then
          let dischargePower := |requestedPower|
          let maxDischargePower := min dischargePower config.maxDischargeRate
          if current.soc ≤ config.minSoc then 0 else maxDischargePower
        else if requestedPower > 0 then 0
        else 0
    | TradingSignal.localSignal => shouldDischargeNowCore current config forecast
  else shouldDischargeNowCore current config forecast

/-- `determineLoadState` of `cost-optimization-strategy.ts`: runtime
accumulators read from the load-state store, slot gathering from the current
slot and the forecast, then the shared selection and priority cascade. The
unused `batteryPower` parameter of the source is dropped. -/
def determineLoadState (currentSlot : ℕ) (config : SiteEnergyConfig)
    (current : SimulationDataPoint) (forecast : List SimulationDataPoint)
    (states : List (ℕ × Bool)) : Bool :=
  let prevLoad := Storage.getPreviousLoadState states currentSlot
  let activationRuntime := Storage.getActivationRuntime states currentSlot
  let runtimeTillNow := Storage.getTodayRuntime states currentSlot current.time
  let futureSlots : List (ℕ × SimulationDataPoint) :=
    (if beforeDeadline current.time config.loadRuntimeDeadlineHour then [(currentSlot, current)]
      else []) ++
      ((forecast.enum.filter (fun p =>
        p.1 ≥ 1 ∧ sameDay p.2.time current.time ∧
          beforeDeadline p.2.time config.loadRuntimeDeadlineHour)).map
        (fun p => (currentSlot + p.1, p.2)))
  loadCommon config current currentSlot prevLoad activationRuntime runtimeTillNow futureSlots

/-- `calculatePvSetpoint` of `cost-optimization-strategy.ts`: non-controllable
capacity only at a negative consumption price; at a negative injection price
additionally just enough controllable capacity to absorb the excess;
otherwise the full capacity. -/
def calculatePvSetpoint (current : SimulationDataPoint) (decision : StrategyDecision)
    (config : SiteEnergyConfig) : ℚ :=
  let nonControllableCapacity :=
    ((config.pvInverters.filter (fun inverter => !inverter.controllable)).map
      (fun inverter => inverter.capacity)).sum
  let controllableCapacity :=
    ((config.pvInverters.filter (fun inverter => inverter.controllable)).map
      (fun inverter => inverter.capacity)).sum
  let currentPvGeneration := (current.pvInverterGenerations.map (fun gen => gen.generation)).sum
  if current.consumptionPrice < 0 then nonControllableCapacity
  else if current.injectionPrice < 0 then
    let effectiveConsumption := current.consumption + decision.batteryPower +
      (if decision.loadState then config.loadNominalPower else 0)
    let excess := max 0 (currentPvGeneration - effectiveConsumption)
    let controllableNeeded := min excess controllableCapacity
    nonControllableCapacity + controllableNeeded
  else nonControllableCapacity + controllableCapacity

/-- `costOptimizationControlCycle` of `cost-optimization-strategy.ts`: charge
else discharge, load state from the store, then the PV setpoint. The
`storeLoadState` call of the source only affects later slots and is handled
by the caller of this pure function. -/
def costOptimizationControlCycle (currentSlot : ℕ) (current : SimulationDataPoint)
    (config : SiteEnergyConfig) (forecast : List SimulationDataPoint)
    (states : List (ℕ × Bool)) : StrategyDecision :=
  let chargePower := shouldChargeNow current config forecast
  let batteryPower :=
    if chargePower > 0 then chargePower
    else
      let dischargePower := shouldDischargeNow current config forecast
      if dischargePower > 0 then -dischargePower else 0
  let loadState := determineLoadState currentSlot config current forecast states
  let decision1 : StrategyDecision :=
    { batteryPower := batteryPower, pvActivePowerSetpoint := 0, loadState := loadState }
  let setpoint := calculatePvSetpoint current decision1 config
  { batteryPower := batteryPower, pvActivePowerSetpoint := setpoint, loadState := loadState }

end CO

/-- Net grid flow of a decision, as computed by `applyGridCapacityLimits`:
consumption, plus the nominal load power when the load is on, plus battery
power, minus PV generation, plus curtailment. -/
def netGridFlow (current : SimulationDataPoint) (decision : ControlDecision)
    (config : SiteEnergyConfig) : ℚ :=
  current.consumption + (if decision.loadState then config.loadNominalPower else 0)
    + decision.batteryPower - current.pvGeneration + decision.curtailment

/-! ## General list lemmas -/

theorem foldl_if_add_eq {α : Type} (p : α → Bool) (g : α → ℚ) (l : List α) (a : ℚ) :
    l.foldl (fun acc v => if p v then acc + g v else acc) a
      = a + ((l.filter p).map g).sum := by
  induction l generalizing a with
  | nil => simp
  | cons x xs ih =>
      by_cases h : p x <;> simp [List.filter_cons, h, ih] <;> ring

theorem filter_partition_sum {α : Type} (p : α → Bool) (g : α → ℚ) (l : List α) :
    ((l.filter p).map g).sum + ((l.filter (fun x => !(p x))).map g).sum = (l.map g).sum := by
  induction l with
  | nil => simp
  | cons x xs ih =>
      by_cases h : p x <;> simp [List.filter_cons, h, ← ih] <;> ring

/-! ## Base examples used by the concrete theorems -/

/-- A configuration with the schema defaults, shared starting point of the
concrete scenarios below. -/
def baseConfig : SiteEnergyConfig :=
  { tradingSignalEnabled := false
    batteryCapacity := 200
    maxChargeRate := 50
    maxDischargeRate := 50
    minSoc := 5
    maxSoc := 95
    batteryRoundTripEfficiency := 95 / 100
    batteryMinPriceDifference := 20
    loadMinRuntimeActivation := 1 / 2
    loadMinRuntimeDaily := 2
    loadRuntimeDeadlineHour := 20
    loadActivationPower := 40
    loadNominalPower := 50
    gridCapacityImportLimit := 200
    gridCapacityExportLimit := 200
    pvInverters := [] }

/-! ## Claim C8 -/

/-- Claim C8: `getAffordablePvGeneration` sums exactly the inverters whose
price is undefined or strictly below the threshold, `getExpensivePvGeneration`
sums exactly those whose price is defined and at least the threshold; the two
filters are complementary, so every inverter is counted by exactly one of the
two functions and the two sums add up to the total generation of all
configured inverters; an inverter priced exactly at the threshold is excluded
from the affordable sum and included in the expensive sum. -/
theorem C8_pv_partition :
    (∀ (dataPoint : SimulationDataPoint) (config : SiteEnergyConfig) (priceThreshold : ℚ),
      getAffordablePvGeneration dataPoint config priceThreshold =
        ((config.pvInverters.filter (affordablePred priceThreshold)).map
          (fun inverter => getPvInverterGeneration dataPoint inverter.id)).sum ∧
      getExpensivePvGeneration dataPoint config priceThreshold =
        ((config.pvInverters.filter (expensivePred priceThreshold)).map
          (fun inverter => getPvInverterGeneration dataPoint inverter.id)).sum ∧
      getAffordablePvGeneration dataPoint config priceThreshold +
        getExpensivePvGeneration dataPoint config priceThreshold =
        (config.pvInverters.map
          (fun inverter => getPvInverterGeneration dataPoint inverter.id)).sum) ∧
    (∀ (priceThreshold : ℚ) (inverter : PvInverter),
      expensivePred priceThreshold inverter = !(affordablePred priceThreshold inverter)) ∧
    (∀ (idStr : String) (cap : ℚ) (ctrl : Bool) (priceThreshold : ℚ),
      affordablePred priceThreshold ⟨idStr, cap, some priceThreshold, ctrl⟩ = false ∧
      expensivePred priceThreshold ⟨idStr, cap, some priceThreshold, ctrl⟩ = true) := by
  have hcompl : ∀ (t : ℚ) (v : PvInverter), expensivePred t v = !(affordablePred t v) := by
    intro t v
    cases hv : v.pricePerMWh with
    | none => simp [affordablePred, expensivePred, hv]
    | some p => simp [affordablePred, expensivePred, hv, ← decide_not, not_lt]
  refine ⟨fun dataPoint config t => ?_, hcompl, fun idStr cap ctrl t => ?_⟩
  · have ha : getAffordablePvGeneration dataPoint config t =
        ((config.pvInverters.filter (affordablePred t)).map
          (fun inverter => getPvInverterGeneration dataPoint inverter.id)).sum := by
      unfold getAffordablePvGeneration
      rw [foldl_if_add_eq]
      ring
    have he : getExpensivePvGeneration dataPoint config t =
        ((config.pvInverters.filter (expensivePred t)).map
          (fun inverter => getPvInverterGeneration dataPoint inverter.id)).sum := by
      unfold getExpensivePvGeneration
      rw [foldl_if_add_eq]
      ring
    refine ⟨ha, he, ?_⟩
    rw [ha, he]
    have hflt : config.pvInverters.filter (expensivePred t) =
        config.pvInverters.filter (fun v => !(affordablePred t v)) := by
      apply List.filter_congr
      intro v _
      rw [hcompl]
    rw [hflt]
    exact filter_partition_sum (affordablePred t)
      (fun inverter => getPvInverterGeneration dataPoint inverter.id) config.pvInverters
  · constructor
    · simp [affordablePred, lt_irrefl]
    · simp [expensivePred]

/-! ## Claim C7 -/

/-- Claim C7: for every data point, strategy decision and configuration with
nonnegative inverter capacities, the PV active power setpoint is nonnegative
and at most the summed capacity of all configured inverters, and at a
negative consumption price it equals exactly the summed capacity of the
non-controllable inverters. -/
theorem C7_pv_setpoint_bounds (current : SimulationDataPoint) (decision : StrategyDecision)
    (config : SiteEnergyConfig)
    (hcap : ∀ inverter ∈ config.pvInverters, 0 ≤ inverter.capacity) :
    0 ≤ CO.calculatePvSetpoint current decision config ∧
    CO.calculatePvSetpoint current decision config ≤
      (config.pvInverters.map (fun inverter => inverter.capacity)).sum ∧
    (current.consumptionPrice < 0 →
      CO.calculatePvSetpoint current decision config =
        ((config.pvInverters.filter (fun inverter => !inverter.controllable)).map
          (fun inverter => inverter.capacity)).sum) := by
  have hn : 0 ≤ ((config.pvInverters.filter (fun v => !v.controllable)).map
      (fun v => v.capacity)).sum := by
    apply List.sum_nonneg
    intro x hx
    obtain ⟨v, hv, rfl⟩ := List.mem_map.mp hx
    exact hcap v (List.mem_filter.mp hv).1
  have hc : 0 ≤ ((config.pvInverters.filter (fun v => v.controllable)).map
      (fun v => v.capacity)).sum := by
    apply List.sum_nonneg
    intro x hx
    obtain ⟨v, hv, rfl⟩ := List.mem_map.mp hx
    exact hcap v (List.mem_filter.mp hv).1
  have hsum : ((config.pvInverters.filter (fun v => v.controllable)).map
        (fun v => v.capacity)).sum +
      ((config.pvInverters.filter (fun v => !v.controllable)).map
        (fun v => v.capacity)).sum =
      (config.pvInverters.map (fun v => v.capacity)).sum :=
    filter_partition_sum (fun v => v.controllable) (fun v => v.capacity) config.pvInverters
  have hbounds : ∀ e : ℚ,
      0 ≤ ((config.pvInverters.filter (fun v => !v.controllable)).map
          (fun v => v.capacity)).sum +
        min (max 0 e) (((config.pvInverters.filter (fun v => v.controllable)).map
          (fun v => v.capacity)).sum) ∧
      ((config.pvInverters.filter (fun v => !v.controllable)).map
          (fun v => v.capacity)).sum +
        min (max 0 e) (((config.pvInverters.filter (fun v => v.controllable)).map
          (fun v => v.capacity)).sum) ≤
        (config.pvInverters.map (fun v => v.capacity)).sum := by
    intro e
    constructor
    · have := le_min (le_max_left (0 : ℚ) e) hc
      linarith
    · have := min_le_right (max (0 : ℚ) e)
        (((config.pvInverters.filter (fun v => v.controllable)).map (fun v => v.capacity)).sum)
      linarith
  simp only [CO.calculatePvSetpoint]
  split_ifs with h1 h2 h3
  · exact ⟨hn, by linarith, fun _ => rfl⟩
  · exact ⟨(hbounds _).1, (hbounds _).2, fun hneg => absurd hneg h1⟩
  · exact ⟨(hbounds _).1, (hbounds _).2, fun hneg => absurd hneg h1⟩
  · exact ⟨by linarith, by linarith, fun hneg => absurd hneg h1⟩

/-- Configuration with two inverters used to witness claim C7. -/
def c7wconfig : SiteEnergyConfig :=
  { baseConfig with pvInverters :=
      [⟨"pv1", 30, none, true⟩, ⟨"pv2", 20, some 80, false⟩] }

/-- Witness for claim C7 at a concrete configuration. -/
theorem C7_pv_setpoint_bounds_witness :
    0 ≤ CO.calculatePvSetpoint defaultPoint ⟨0, 0, false⟩ c7wconfig ∧
    CO.calculatePvSetpoint defaultPoint ⟨0, 0, false⟩ c7wconfig ≤
      (c7wconfig.pvInverters.map (fun inverter => inverter.capacity)).sum ∧
    (defaultPoint.consumptionPrice < 0 →
      CO.calculatePvSetpoint defaultPoint ⟨0, 0, false⟩ c7wconfig =
        ((c7wconfig.pvInverters.filter (fun inverter => !inverter.controllable)).map
          (fun inverter => inverter.capacity)).sum) := by
  apply C7_pv_setpoint_bounds
  intro inverter hmem
  simp only [c7wconfig, baseConfig, List.mem_cons, List.mem_singleton] at hmem
  rcases hmem with rfl | rfl | h
  · norm_num
  · norm_num
  · simp at h

/-! ## Battery adjustment of the grid capacity pass -/

/-- The grid capacity pass changes battery power in exactly one of three
ways: not at all, reduced by `min e batteryPower` for a positive excess `e`
when charging, or raised by `min e (maxChargeRate - batteryPower)` for a
positive excess `e` when below the charge rate. -/
theorem applyGrid_battery_eq (current : SimulationDataPoint) (decision : ControlDecision)
    (config : SiteEnergyConfig) :
    (OA.applyGridCapacityLimits current decision config).batteryPower = decision.batteryPower ∨
    (∃ e : ℚ, 0 < e ∧ 0 < decision.batteryPower ∧
      (OA.applyGridCapacityLimits current decision config).batteryPower =
        decision.batteryPower - min e decision.batteryPower) ∨
    (∃ e : ℚ, 0 < e ∧ decision.batteryPower < config.maxChargeRate ∧
      (OA.applyGridCapacityLimits current decision config).batteryPower =
        decision.batteryPower + min e (config.maxChargeRate - decision.batteryPower)) := by
  simp only [OA.applyGridCapacityLimits]
  split_ifs with h1 h2 h3 h4
  · simp only [OA.importAdjust, OA.importBatteryPower]
    split_ifs with hb
    · exact Or.inr (Or.inl ⟨_, by linarith, hb, rfl⟩)
    · exact Or.inl rfl
  · exact Or.inl rfl
  · simp only [OA.exportAdjust, OA.exportBatteryPower]
    split_ifs with hb
    · exact Or.inr (Or.inr ⟨_, by linarith, hb, rfl⟩)
    · exact Or.inl rfl
  · exact Or.inl rfl
  · exact Or.inl rfl

/-- The grid capacity pass keeps a nonnegative battery power nonnegative. -/
theorem applyGrid_battery_nonneg (current : SimulationDataPoint) (decision : ControlDecision)
    (config : SiteEnergyConfig) (h : 0 ≤ decision.batteryPower) :
    0 ≤ (OA.applyGridCapacityLimits current decision config).batteryPower := by
  rcases applyGrid_battery_eq current decision config with heq | ⟨e, he, hb, heq⟩ | ⟨e, he, hb, heq⟩
  · rw [heq]; exact h
  · rw [heq]
    have := min_le_right e decision.batteryPower
    linarith
  · rw [heq]
    have : 0 ≤ min e (config.maxChargeRate - decision.batteryPower) :=
      le_min he.le (by linarith)
    linarith

/-- The grid capacity pass never raises battery power above the charge rate. -/
theorem applyGrid_battery_le (current : SimulationDataPoint) (decision : ControlDecision)
    (config : SiteEnergyConfig) (h : decision.batteryPower ≤ config.maxChargeRate) :
    (OA.applyGridCapacityLimits current decision config).batteryPower ≤ config.maxChargeRate := by
  rcases applyGrid_battery_eq current decision config with heq | ⟨e, he, hb, heq⟩ | ⟨e, he, hb, heq⟩
  · rw [heq]; exact h
  · rw [heq]
    have : 0 ≤ min e decision.batteryPower := le_min he.le hb.le
    linarith
  · rw [heq]
    have := min_le_right e (config.maxChargeRate - decision.batteryPower)
    linarith

/-- The grid capacity pass never lowers battery power below the negated
discharge rate. -/
theorem applyGrid_battery_lower (current : SimulationDataPoint) (decision : ControlDecision)
    (config : SiteEnergyConfig) (h : -config.maxDischargeRate ≤ decision.batteryPower)
    (hmdr : 0 ≤ config.maxDischargeRate) :
    -config.maxDischargeRate ≤ (OA.applyGridCapacityLimits current decision config).batteryPower := by
  rcases applyGrid_battery_eq current decision config with heq | ⟨e, he, hb, heq⟩ | ⟨e, he, hb, heq⟩
  · rw [heq]; exact h
  · rw [heq]
    have := min_le_right e decision.batteryPower
    linarith
  · rw [heq]
    have : 0 ≤ min e (config.maxChargeRate - decision.batteryPower) :=
      le_min he.le (by linarith)
    linarith

/-! ## Bounds of the battery policy of `optimization-algorithm.ts` -/

/-- The PV surplus charge block stays within `[0, maxChargeRate]`. -/
theorem chargeBlok4_bounds (current : SimulationDataPoint) (config : SiteEnergyConfig)
    (hmcr : 0 ≤ config.maxChargeRate) :
    0 ≤ chargeBlok4 current config ∧ chargeBlok4 current config ≤ config.maxChargeRate := by
  simp only [chargeBlok4]
  split_ifs with h
  · exact ⟨le_min h.le hmcr, min_le_right _ _⟩
  · exact ⟨le_rfl, hmcr⟩

/-- The charge policy of `optimization-algorithm.ts` stays within
`[0, maxChargeRate]`. -/
theorem OA_shouldChargeNow_bounds (current : SimulationDataPoint) (config : SiteEnergyConfig)
    (forecast : List SimulationDataPoint) (hmcr : 0 ≤ config.maxChargeRate) :
    0 ≤ OA.shouldChargeNow current config forecast ∧
      OA.shouldChargeNow current config forecast ≤ config.maxChargeRate := by
  have hb4 := chargeBlok4_bounds current config hmcr
  simp only [OA.shouldChargeNow]
  split_ifs with h1 h2 h3 h4 h5
  · exact ⟨le_rfl, hmcr⟩
  · exact ⟨hmcr, le_rfl⟩
  · exact ⟨le_rfl, hmcr⟩
  · exact hb4
  · refine ⟨le_min ?_ hmcr, min_le_right _ _⟩
    have hmax := le_max_left (0 : ℚ)
      (min ((((slotsToCheck ((forecast.drop 1).take 32) current.consumptionPrice).filter
        (fun s => s.consumptionPrice - current.consumptionPrice / config.batteryRoundTripEfficiency
          ≥ config.batteryMinPriceDifference)).foldl
            (deficitStep ((config.maxSoc - current.soc) / 100 * config.batteryCapacity)) (0, 0)).1 -
          (current.soc - config.minSoc) / 100 * config.batteryCapacity)
        ((config.maxSoc - current.soc) / 100 * config.batteryCapacity))
    positivity
  · exact hb4

/-- The discharge policy of `optimization-algorithm.ts` stays within
`[0, maxDischargeRate]`. -/
theorem OA_shouldDischargeNow_bounds (current : SimulationDataPoint) (config : SiteEnergyConfig)
    (forecast : List SimulationDataPoint) (hmdr : 0 ≤ config.maxDischargeRate) :
    0 ≤ OA.shouldDischargeNow current config forecast ∧
      OA.shouldDischargeNow current config forecast ≤ config.maxDischargeRate := by
  simp only [OA.shouldDischargeNow]
  split_ifs with h1 h2 h3 h4 h5 h6
  · exact ⟨le_rfl, hmdr⟩
  · exact ⟨le_rfl, hmdr⟩
  · refine ⟨h4.le, ?_⟩
    calc min (min config.maxDischargeRate config.gridCapacityExportLimit) _
        ≤ min config.maxDischargeRate config.gridCapacityExportLimit := min_le_left _ _
      _ ≤ config.maxDischargeRate := min_le_left _ _
  · exact ⟨le_rfl, hmdr⟩
  · exact ⟨le_rfl, hmdr⟩
  · exact ⟨le_rfl, hmdr⟩
  · refine ⟨(not_le.mp h6).le, ?_⟩
    calc min (min (max 0 (current.consumption - current.pvGeneration))
          config.maxDischargeRate) _
        ≤ min (max 0 (current.consumption - current.pvGeneration))
            config.maxDischargeRate := min_le_left _ _
      _ ≤ config.maxDischargeRate := min_le_right _ _

/-- At a negative consumption price the discharge policy of
`optimization-algorithm.ts` returns zero. -/
theorem OA_shouldDischargeNow_at_neg (current : SimulationDataPoint) (config : SiteEnergyConfig)
    (forecast : List SimulationDataPoint) (h : current.consumptionPrice < 0) :
    OA.shouldDischargeNow current config forecast = 0 := by
  unfold OA.shouldDischargeNow
  by_cases h1 : current.soc ≤ config.minSoc
  · simp [h1]
  · simp [h1, h]

/-! ## Bounds of the battery policy of `cost-optimization-strategy.ts` -/

/-- The inner negative-price allocation keeps the current slot power within
`[0, maxChargeRate]`. -/
theorem allocGroupSlots_snd_bounds (config : SiteEnergyConfig) (gcap genergy : ℚ)
    (l : List (ℕ × SimulationDataPoint)) (st : ℚ × ℚ)
    (hmcr : 0 ≤ config.maxChargeRate) (hgc : 0 ≤ gcap)
    (hst : 0 ≤ st.2 ∧ st.2 ≤ config.maxChargeRate) :
    0 ≤ (CO.allocGroupSlots config gcap genergy l st).2 ∧
      (CO.allocGroupSlots config gcap genergy l st).2 ≤ config.maxChargeRate := by
  induction l generalizing st with
  | nil => exact hst
  | cons slot rest ih =>
      simp only [CO.allocGroupSlots]
      split_ifs with hge hidx
      · exact hst
      · apply ih
        constructor
        · apply le_min _ hmcr
          apply div_nonneg _ (by norm_num)
          apply le_min
          · apply mul_nonneg (div_nonneg (le_max_left _ _) hgc)
            linarith
          · positivity
        · exact min_le_right _ _
      · exact ih _ hst

/-- The outer negative-price allocation keeps the current slot power within
`[0, maxChargeRate]`. -/
theorem allocGroups_snd_bounds (config : SiteEnergyConfig)
    (groups : List (ℚ × List (ℕ × SimulationDataPoint))) (st : ℚ × ℚ)
    (hmcr : 0 ≤ config.maxChargeRate) (hst : 0 ≤ st.2 ∧ st.2 ≤ config.maxChargeRate) :
    0 ≤ (CO.allocGroups config groups st).2 ∧
      (CO.allocGroups config groups st).2 ≤ config.maxChargeRate := by
  induction groups generalizing st with
  | nil => exact hst
  | cons group rest ih =>
      simp only [CO.allocGroups]
      split_ifs with hrem
      · exact hst
      · apply ih
        apply allocGroupSlots_snd_bounds _ _ _ _ _ hmcr _ hst
        apply List.sum_nonneg
        intro x hx
        obtain ⟨p, hp, rfl⟩ := List.mem_map.mp hx
        exact le_max_left _ _

/-- `optimizeNegativePriceCharging` never returns a negative power. -/
theorem optimize_nonneg (current : SimulationDataPoint) (config : SiteEnergyConfig)
    (forecast : List SimulationDataPoint) :
    0 ≤ CO.optimizeNegativePriceCharging current config forecast := by
  simp only [CO.optimizeNegativePriceCharging]
  split_ifs <;>
    first
      | exact le_rfl
      | (rename_i hfin; exact (not_le.mp hfin).le)

/-- `optimizeNegativePriceCharging` stays within `[0, maxChargeRate]`. -/
theorem optimize_bounds (current : SimulationDataPoint) (config : SiteEnergyConfig)
    (forecast : List SimulationDataPoint) (hmcr : 0 ≤ config.maxChargeRate) :
    0 ≤ CO.optimizeNegativePriceCharging current config forecast ∧
      CO.optimizeNegativePriceCharging current config forecast ≤ config.maxChargeRate := by
  refine ⟨optimize_nonneg current config forecast, ?_⟩
  simp only [CO.optimizeNegativePriceCharging]
  split_ifs <;>
    first
      | exact hmcr
      | exact (allocGroups_snd_bounds config _ _ hmcr ⟨le_rfl, hmcr⟩).2

/-- The spread allocation keeps the current slot power within
`[0, maxChargeRate]`. -/
theorem allocSpread_snd_bounds (config : SiteEnergyConfig) (total needed : ℚ)
    (l : List (ℕ × ℚ)) (st : ℚ × ℚ)
    (hmcr : 0 ≤ config.maxChargeRate) (htot : 0 ≤ total) (hneed : 0 ≤ needed)
    (hl : ∀ p ∈ l, 0 ≤ p.2) (hst : 0 ≤ st.2 ∧ st.2 ≤ config.maxChargeRate) :
    0 ≤ (CO.allocSpread config total needed l st).2 ∧
      (CO.allocSpread config total needed l st).2 ≤ config.maxChargeRate := by
  induction l generalizing st with
  | nil => exact hst
  | cons slot rest ih =>
      have hhead : 0 ≤ slot.2 := hl slot (List.mem_cons_self _ _)
      simp only [CO.allocSpread]
      split_ifs with hrem hidx
      · exact hst
      · apply ih _ (fun p hp => hl p (List.mem_cons_of_mem _ hp))
        constructor
        · apply le_min _ hmcr
          apply le_min _ hhead
          apply div_nonneg _ (by norm_num)
          apply le_min
          · apply le_min
            · exact mul_nonneg (div_nonneg hhead htot) hneed
            · linarith
          · positivity
        · exact min_le_right _ _
      · exact ih _ (fun p hp => hl p (List.mem_cons_of_mem _ hp)) hst

/-- `calculateSpreadChargePower` stays within `[0, maxChargeRate]` when the
needed energy is nonnegative. -/
theorem spread_bounds (needed : ℚ) (current : SimulationDataPoint)
    (forecast : List SimulationDataPoint) (config : SiteEnergyConfig)
    (hmcr : 0 ≤ config.maxChargeRate) (hneed : 0 ≤ needed) :
    0 ≤ CO.calculateSpreadChargePower needed current forecast config ∧
      CO.calculateSpreadChargePower needed current forecast config ≤ config.maxChargeRate := by
  simp only [CO.calculateSpreadChargePower]
  split_ifs with h1 h2
  · exact ⟨le_min (div_nonneg hneed (by norm_num)) hmcr, min_le_right _ _⟩
  · exact ⟨le_min (div_nonneg hneed (by norm_num)) hmcr, min_le_right _ _⟩
  · apply allocSpread_snd_bounds config _ _ _ _ hmcr (not_le.mp h2).le hneed ?_ ⟨le_rfl, hmcr⟩
    intro p hp
    rcases List.mem_cons.mp hp with rfl | hp'
    · exact le_max_left _ _
    · obtain ⟨i, hi, rfl⟩ := List.mem_map.mp hp'
      exact le_max_left _ _

/-- The charge policy core of `cost-optimization-strategy.ts` stays within
`[0, maxChargeRate]`. -/
theorem CO_shouldChargeNowCore_bounds (current : SimulationDataPoint)
    (config : SiteEnergyConfig) (forecast : List SimulationDataPoint)
    (hmcr : 0 ≤ config.maxChargeRate) :
    0 ≤ CO.shouldChargeNowCore current config forecast ∧
      CO.shouldChargeNowCore current config forecast ≤ config.maxChargeRate := by
  have hb4 := chargeBlok4_bounds current config hmcr
  simp only [CO.shouldChargeNowCore]
  split_ifs with h1 h2 h3 h4 h5
  · exact ⟨le_rfl, hmcr⟩
  · exact optimize_bounds current config forecast hmcr
  · exact ⟨le_rfl, hmcr⟩
  · exact hb4
  · exact spread_bounds _ current forecast config hmcr (le_max_left _ _)
  · exact hb4

/-- The charge policy of `cost-optimization-strategy.ts`, trading signals
included, stays within `[0, maxChargeRate]`. -/
theorem CO_shouldChargeNow_bounds (current : SimulationDataPoint) (config : SiteEnergyConfig)
    (forecast : List SimulationDataPoint) (hmcr : 0 ≤ config.maxChargeRate) :
    0 ≤ CO.shouldChargeNow current config forecast ∧
      CO.shouldChargeNow current config forecast ≤ config.maxChargeRate := by
  have hcore := CO_shouldChargeNowCore_bounds current config forecast hmcr
  unfold CO.shouldChargeNow
  by_cases ht : config.tradingSignalEnabled = true
  · rw [if_pos ht]
    cases hsig : current.tradingSignal with
    | standby => exact ⟨le_rfl, hmcr⟩
    | localSignal => exact hcore
    | overrule =>
        dsimp only
        split_ifs with hr1 hr2
        · exact ⟨le_rfl, hmcr⟩
        · exact ⟨le_min hr1.le hmcr, min_le_right _ _⟩
        · exact ⟨le_rfl, hmcr⟩
        · exact ⟨le_rfl, hmcr⟩
  · rw [if_neg ht]
    exact hcore

/-- The discharge policy of `cost-optimization-strategy.ts`, trading signals
included, stays within `[0, maxDischargeRate]`. -/
theorem CO_shouldDischargeNow_bounds (current : SimulationDataPoint) (config : SiteEnergyConfig)
    (forecast : List SimulationDataPoint) (hmdr : 0 ≤ config.maxDischargeRate) :
    0 ≤ CO.shouldDischargeNow current config forecast ∧
      CO.shouldDischargeNow current config forecast ≤ config.maxDischargeRate := by
  have hcore := OA_shouldDischargeNow_bounds current config forecast hmdr
  unfold CO.shouldDischargeNow CO.shouldDischargeNowCore
  by_cases ht : config.tradingSignalEnabled = true
  · rw [if_pos ht]
    cases hsig : current.tradingSignal with
    | standby => exact ⟨le_rfl, hmdr⟩
    | localSignal => exact hcore
    | overrule =>
        dsimp only
        split_ifs with hr1 hr2
        · exact ⟨le_rfl, hmdr⟩
        · exact ⟨le_min (abs_nonneg _) hmdr, min_le_right _ _⟩
        · exact ⟨le_rfl, hmdr⟩
        · exact ⟨le_rfl, hmdr⟩
  · rw [if_neg ht]
    exact hcore

/-- Under a negative consumption price the discharge policy of
`cost-optimization-strategy.ts` returns zero, provided no overrule with a
negative requested power is active. -/
theorem CO_shouldDischargeNow_neg_zero (current : SimulationDataPoint)
    (config : SiteEnergyConfig) (forecast : List SimulationDataPoint)
    (hneg : current.consumptionPrice < 0)
    (hside : config.tradingSignalEnabled = false ∨
      current.tradingSignal ≠ TradingSignal.overrule ∨
      0 ≤ current.tradingSignalRequestedPower) :
    CO.shouldDischargeNow current config forecast = 0 := by
  have hcore := OA_shouldDischargeNow_at_neg current config forecast hneg
  unfold CO.shouldDischargeNow CO.shouldDischargeNowCore
  by_cases ht : config.tradingSignalEnabled = true
  · rw [if_pos ht]
    cases hsig : current.tradingSignal with
    | standby => rfl
    | localSignal => exact hcore
    | overrule =>
        dsimp only
        rcases hside with hoff | hnotsig | hreqpos
        · rw [ht] at hoff
          exact absurd hoff (by simp)
        · exact absurd hsig hnotsig
        · split_ifs with hr1 hr2
          · exact absurd hreqpos (not_le.mpr hr1)
          · exact absurd hreqpos (not_le.mpr hr1)
          · rfl
          · rfl
  · rw [if_neg ht]
    exact hcore

/-- Combining charge and discharge evaluation as both control cycles do
keeps the battery power within `[-maxDischargeRate, maxChargeRate]`. -/
theorem battery_combine (chargePower dischargePower maxCR maxDR : ℚ)
    (hc : 0 ≤ chargePower ∧ chargePower ≤ maxCR)
    (hd : 0 ≤ dischargePower ∧ dischargePower ≤ maxDR)
    (hmcr : 0 ≤ maxCR) (hmdr : 0 ≤ maxDR) :
    -maxDR ≤ (if chargePower > 0 then chargePower
      else if dischargePower > 0 then -dischargePower else 0) ∧
    (if chargePower > 0 then chargePower
      else if dischargePower > 0 then -dischargePower else 0) ≤ maxCR := by
  split_ifs with h1 h2 <;> constructor <;> linarith [hc.1, hc.2, hd.1, hd.2]

/-! ## Claim C3 -/

/-- Claim C3 (amended): at a negative consumption price the emitted battery
power is nonnegative, for the full `optimization-algorithm.ts` control cycle
(grid capacity pass included), and for the cost-optimization strategy cycle
whenever trading signals are disabled, the signal is not `overrule`, or the
requested power is nonnegative. (The excluded case is the counterexample:
an `overrule` with a negative requested power discharges at a negative
price.) -/
theorem C3_amended :
    (∀ (currentSlot : ℕ) (data : List SimulationDataPoint) (config : SiteEnergyConfig),
      (data.getD currentSlot defaultPoint).consumptionPrice < 0 →
      0 ≤ (OA.controlCycle currentSlot data config).batteryPower) ∧
    (∀ (currentSlot : ℕ) (current : SimulationDataPoint) (config : SiteEnergyConfig)
        (forecast : List SimulationDataPoint) (states : List (ℕ × Bool)),
      current.consumptionPrice < 0 →
      (config.tradingSignalEnabled = false ∨
        current.tradingSignal ≠ TradingSignal.overrule ∨
        0 ≤ current.tradingSignalRequestedPower) →
      0 ≤ (CO.costOptimizationControlCycle currentSlot current config forecast states).batteryPower) := by
  constructor
  · intro currentSlot data config hneg
    simp only [OA.controlCycle]
    apply applyGrid_battery_nonneg
    dsimp only
    split_ifs with h1 h2
    · exact h1.le
    · rw [OA_shouldDischargeNow_at_neg _ _ _ hneg] at h2
      exact absurd h2 (lt_irrefl 0)
    · exact le_rfl
  · intro currentSlot current config forecast states hneg hside
    simp only [CO.costOptimizationControlCycle]
    split_ifs with h1 h2
    · exact h1.le
    · rw [CO_shouldDischargeNow_neg_zero _ _ _ hneg hside] at h2
      exact absurd h2 (lt_irrefl 0)
    · exact le_rfl

/-- Slot used to witness the amended claim C3. -/
def c3wpoint : SimulationDataPoint := { defaultPoint with consumptionPrice := -5 }

/-- Witness for the amended claim C3 at a concrete input. -/
theorem C3_amended_witness :
    (List.getD [c3wpoint] 0 defaultPoint).consumptionPrice < 0 ∧
    baseConfig.tradingSignalEnabled = false ∧
    0 ≤ (OA.controlCycle 0 [c3wpoint] baseConfig).batteryPower ∧
    0 ≤ (CO.costOptimizationControlCycle 0 c3wpoint baseConfig [c3wpoint] []).batteryPower :=
  ⟨by norm_num [c3wpoint, defaultPoint], rfl,
    C3_amended.1 0 [c3wpoint] baseConfig (by norm_num [c3wpoint, defaultPoint]),
    C3_amended.2 0 c3wpoint baseConfig [c3wpoint] []
      (by norm_num [c3wpoint, defaultPoint]) (Or.inl rfl)⟩

/-- Configuration of the C3 counterexample: trading signals enabled. -/
def c3config : SiteEnergyConfig :=
  { baseConfig with
    tradingSignalEnabled := true
    maxDischargeRate := 60
    loadNominalPower := 0 }

/-- Slot of the C3 counterexample: negative consumption price together with
an `overrule` trading signal requesting a 50 kW discharge. -/
def c3current : SimulationDataPoint :=
  { defaultPoint with
    time := ⟨0, 10, 0⟩
    consumptionPrice := -20
    injectionPrice := 10
    consumption := 10
    soc := 50
    tradingSignal := TradingSignal.overrule
    tradingSignalRequestedPower := -50 }

/-- Claim C3 (counterexample): with trading signals enabled and an `overrule`
signal requesting a discharge, the cost-optimization cycle emits battery
power -50 although the consumption price is negative; the grid capacity pass
leaves this discharge untouched here since flow is within the limits. -/
theorem C3_counterexample :
    c3current.consumptionPrice < 0 ∧
    (CO.costOptimizationControlCycle 0 c3current c3config [c3current] []).batteryPower = -50 ∧
    (CO.costOptimizationControlCycle 0 c3current c3config [c3current] []).batteryPower < 0 ∧
    (OA.applyGridCapacityLimits c3current
        { batteryPower := -50, curtailment := 0, loadState := true } c3config).batteryPower
      < 0 := by
  refine ⟨by norm_num [c3current, defaultPoint], ?_, ?_, ?_⟩
  · norm_num [CO.costOptimizationControlCycle, CO.shouldChargeNow, CO.shouldDischargeNow,
      c3current, c3config, baseConfig, defaultPoint]
  · norm_num [CO.costOptimizationControlCycle, CO.shouldChargeNow, CO.shouldDischargeNow,
      c3current, c3config, baseConfig, defaultPoint]
  · norm_num [OA.applyGridCapacityLimits, OA.gridTotalPowerFlow, OA.gridLoadPower,
      OA.exportAdjust, OA.exportBatteryPower, c3current, c3config, baseConfig, defaultPoint]

/-! ## Claim C4 -/

/-- Claim C4: for every slot and configuration with nonnegative rate limits,
the battery power of the final emitted decision satisfies
`-maxDischargeRate ≤ batteryPower ≤ maxChargeRate`; for the full
`optimization-algorithm.ts` cycle this includes the value after the grid
capacity pass (whose export branch only raises charging up to
`maxChargeRate` and whose import branch only lowers charging toward zero),
and for the cost-optimization strategy cycle the policy value itself
(including the spread and negative-price allocations). -/
theorem C4_rate_limits :
    (∀ (currentSlot : ℕ) (data : List SimulationDataPoint) (config : SiteEnergyConfig),
      0 ≤ config.maxChargeRate → 0 ≤ config.maxDischargeRate →
      -config.maxDischargeRate ≤ (OA.controlCycle currentSlot data config).batteryPower ∧
        (OA.controlCycle currentSlot data config).batteryPower ≤ config.maxChargeRate) ∧
    (∀ (currentSlot : ℕ) (current : SimulationDataPoint) (config : SiteEnergyConfig)
        (forecast : List SimulationDataPoint) (states : List (ℕ × Bool)),
      0 ≤ config.maxChargeRate → 0 ≤ config.maxDischargeRate →
      -config.maxDischargeRate ≤
          (CO.costOptimizationControlCycle currentSlot current config forecast states).batteryPower ∧
        (CO.costOptimizationControlCycle currentSlot current config forecast states).batteryPower ≤
          config.maxChargeRate) := by
  constructor
  · intro currentSlot data config hmcr hmdr
    simp only [OA.controlCycle]
    refine ⟨applyGrid_battery_lower _ _ _ ?_ hmdr, applyGrid_battery_le _ _ _ ?_⟩
    · try dsimp only
      exact (battery_combine _ _ _ _ (OA_shouldChargeNow_bounds _ _ _ hmcr)
        (OA_shouldDischargeNow_bounds _ _ _ hmdr) hmcr hmdr).1
    · try dsimp only
      exact (battery_combine _ _ _ _ (OA_shouldChargeNow_bounds _ _ _ hmcr)
        (OA_shouldDischargeNow_bounds _ _ _ hmdr) hmcr hmdr).2
  · intro currentSlot current config forecast states hmcr hmdr
    simp only [CO.costOptimizationControlCycle]
    exact battery_combine _ _ _ _ (CO_shouldChargeNow_bounds _ _ _ hmcr)
      (CO_shouldDischargeNow_bounds _ _ _ hmdr) hmcr hmdr

/-- Witness for claim C4 at a concrete input. -/
theorem C4_rate_limits_witness :
    0 ≤ baseConfig.maxChargeRate ∧ 0 ≤ baseConfig.maxDischargeRate ∧
    (-baseConfig.maxDischargeRate ≤ (OA.controlCycle 0 [defaultPoint] baseConfig).batteryPower ∧
      (OA.controlCycle 0 [defaultPoint] baseConfig).batteryPower ≤ baseConfig.maxChargeRate) ∧
    (-baseConfig.maxDischargeRate ≤
        (CO.costOptimizationControlCycle 0 defaultPoint baseConfig [defaultPoint] []).batteryPower ∧
      (CO.costOptimizationControlCycle 0 defaultPoint baseConfig [defaultPoint] []).batteryPower ≤
        baseConfig.maxChargeRate) :=
  ⟨by norm_num [baseConfig], by norm_num [baseConfig],
    C4_rate_limits.1 0 [defaultPoint] baseConfig (by norm_num [baseConfig])
      (by norm_num [baseConfig]),
    C4_rate_limits.2 0 defaultPoint baseConfig [defaultPoint] [] (by norm_num [baseConfig])
      (by norm_num [baseConfig])⟩

/-! ## Claim C5 -/

/-- Slot of the C5 counterexample: negative consumption price. -/
def c5current : SimulationDataPoint :=
  { defaultPoint with
    time := ⟨0, 10, 0⟩
    consumptionPrice := -20
    soc := 50 }

/-- Configuration of the C5 counterexample: battery capacity zero. -/
def c5config : SiteEnergyConfig :=
  { baseConfig with
    batteryCapacity := 0
    loadNominalPower := 0 }

/-- Slot of the C5 counterexample for the empty-forecast class: a positive
price, a 30 kW deficit and energy in the battery. -/
def c5ecurrent : SimulationDataPoint :=
  { defaultPoint with
    consumptionPrice := 10
    consumption := 30
    soc := 50 }

/-- Claim C5 (counterexample): two degenerate classes produce nonzero
battery power. With battery capacity zero, the negative-price charge branch
still returns the full charge rate, so the per-slot evaluation emits battery
power 50 rather than a zero-magnitude decision; and with no forecast entries
beyond the current slot, block 3 of the discharge evaluation still covers
the current 30 kW deficit (the empty lookahead only makes futureNeed zero). -/
theorem C5_counterexample :
    c5config.batteryCapacity = 0 ∧
    (OA.controlCycle 0 [c5current] c5config).batteryPower = 50 ∧
    ¬ (OA.controlCycle 0 [c5current] c5config).batteryPower = 0 ∧
    OA.shouldDischargeNow c5ecurrent baseConfig [c5ecurrent] = 30 ∧
    ¬ OA.shouldDischargeNow c5ecurrent baseConfig [c5ecurrent] = 0 := by
  refine ⟨rfl, ?_, ?_, ?_, ?_⟩
  · norm_num [OA.controlCycle, OA.shouldChargeNow, OA.calculatePvCurtailment,
      OA.applyGridCapacityLimits, OA.gridTotalPowerFlow, OA.gridLoadPower,
      c5current, c5config, baseConfig, defaultPoint]
  · norm_num [OA.controlCycle, OA.shouldChargeNow, OA.calculatePvCurtailment,
      OA.applyGridCapacityLimits, OA.gridTotalPowerFlow, OA.gridLoadPower,
      c5current, c5config, baseConfig, defaultPoint]
  · norm_num [OA.shouldDischargeNow, getNegativePriceLookaheadHorizon, findNegSlot,
      findNegSlotAux, jsCeil, c5ecurrent, baseConfig, defaultPoint]
  · norm_num [OA.shouldDischargeNow, getNegativePriceLookaheadHorizon, findNegSlot,
      findNegSlotAux, jsCeil, c5ecurrent, baseConfig, defaultPoint]

/-- Claim C5 (amended): two degenerate classes yield zero-power decisions
from both battery evaluations of `optimization-algorithm.ts` (total
functions, hence no exception): battery capacity zero together with a
nonnegative charge rate, a nonnegative consumption price and no affordable
PV surplus; and `minSoc = maxSoc` with the state of charge pinned at that
value. The remaining degenerate cases of the original claim fail: the
negative-price charge branch returns the full charge rate independently of
the capacity, and with an empty forecast beyond the current slot the
discharge evaluation still covers the current deficit (the counterexample
exhibits both). -/
theorem C5_amended (current : SimulationDataPoint) (config : SiteEnergyConfig)
    (forecast : List SimulationDataPoint) :
    (config.batteryCapacity = 0 → 0 ≤ config.maxChargeRate →
      0 ≤ current.consumptionPrice →
      getAffordablePvGeneration current config current.consumptionPrice ≤
        current.consumption →
      OA.shouldChargeNow current config forecast = 0 ∧
      OA.shouldDischargeNow current config forecast = 0) ∧
    (config.minSoc = config.maxSoc → current.soc = config.maxSoc →
      OA.shouldChargeNow current config forecast = 0 ∧
      OA.shouldDischargeNow current config forecast = 0) := by
  constructor
  · intro hcap hmcr hprice hpv
    have hb4 : chargeBlok4 current config = 0 := by
      simp only [chargeBlok4]
      rw [if_neg (not_lt.mpr (sub_nonpos.mpr hpv))]
    constructor
    · simp only [OA.shouldChargeNow]
      split_ifs with h1 h2 h3 h4 h5
      · rfl
      · exact absurd h2 (not_lt.mpr hprice)
      · rfl
      · exact hb4
      · simp only [hcap, mul_zero]
        rw [max_eq_left (min_le_right _ _), zero_div, min_eq_left hmcr]
      · exact hb4
    · simp only [OA.shouldDischargeNow]
      split_ifs with h1 h2 h3 h4 h5 h6
      · rfl
      · rfl
      · exfalso
        simp only [hcap, mul_zero, sub_self, zero_div] at h4
        exact absurd h4 (not_lt.mpr (min_le_right _ _))
      · rfl
      · rfl
      · rfl
      · exfalso
        apply h6
        refine le_trans (min_le_right _ _) ?_
        simp only [hcap, mul_zero]
        rw [sub_self, zero_sub, neg_div, neg_nonpos]
        positivity
  · intro hsoc hpin
    constructor
    · simp only [OA.shouldChargeNow]
      rw [if_pos (le_of_eq hpin.symm)]
    · simp only [OA.shouldDischargeNow]
      rw [if_pos (le_of_eq (hpin.trans hsoc.symm))]

/-- Slot used to witness the capacity-zero conjunct of the amended claim
C5. -/
def c5wcurrent : SimulationDataPoint :=
  { defaultPoint with consumptionPrice := 10, consumption := 5 }

/-- Configuration used to witness the capacity-zero conjunct of the amended
claim C5. -/
def c5wconfig : SiteEnergyConfig := { baseConfig with batteryCapacity := 0 }

/-- Slot used to witness the pinned-soc conjunct of the amended claim C5. -/
def c5pcurrent : SimulationDataPoint := { defaultPoint with soc := 50 }

/-- Configuration used to witness the pinned-soc conjunct of the amended
claim C5. -/
def c5pconfig : SiteEnergyConfig :=
  { baseConfig with
    minSoc := 50
    maxSoc := 50 }

/-- Witness for the amended claim C5 at a concrete input per conjunct. -/
theorem C5_amended_witness :
    (c5wconfig.batteryCapacity = 0 ∧ 0 ≤ c5wconfig.maxChargeRate ∧
      0 ≤ c5wcurrent.consumptionPrice ∧
      getAffordablePvGeneration c5wcurrent c5wconfig c5wcurrent.consumptionPrice ≤
        c5wcurrent.consumption ∧
      (OA.shouldChargeNow c5wcurrent c5wconfig [] = 0 ∧
        OA.shouldDischargeNow c5wcurrent c5wconfig [] = 0)) ∧
    (c5pconfig.minSoc = c5pconfig.maxSoc ∧ c5pcurrent.soc = c5pconfig.maxSoc ∧
      (OA.shouldChargeNow c5pcurrent c5pconfig [] = 0 ∧
        OA.shouldDischargeNow c5pcurrent c5pconfig [] = 0)) :=
  ⟨⟨rfl, by norm_num [c5wconfig, baseConfig], by norm_num [c5wcurrent, defaultPoint],
    by norm_num [getAffordablePvGeneration, c5wconfig, c5wcurrent, baseConfig, defaultPoint],
    (C5_amended c5wcurrent c5wconfig []).1 rfl (by norm_num [c5wconfig, baseConfig])
      (by norm_num [c5wcurrent, defaultPoint])
      (by norm_num [getAffordablePvGeneration, c5wconfig, c5wcurrent, baseConfig,
        defaultPoint])⟩,
   ⟨rfl, rfl, (C5_amended c5pcurrent c5pconfig []).2 rfl rfl⟩⟩

/-! ## Claim C6 -/

/-- Claim C6 (amended): the load scheduler of `optimization-algorithm.ts`
itself never turns the load off while the consecutive activation runtime is
below the configured minimum: whenever the load was on in the previous slot
and the runtime counted backward over the data is below
`loadMinRuntimeActivation`, `determineLoadState` returns on. (The original
claim also covered decisions after the grid capacity pass; the
counterexample shows the pass can turn the load off mid-minimum-run.) -/
theorem C6_amended (i : ℕ) (data : List SimulationDataPoint)
    (config : SiteEnergyConfig) (current : SimulationDataPoint)
    (hprev : (data.getD i defaultPoint).loadState = true)
    (hrun : (OA.dataOnStreak data i : ℚ) * (0.25 : ℚ) < config.loadMinRuntimeActivation) :
    OA.determineLoadState (i + 1) data config current = true := by
  have hgt : i + 1 > 0 := Nat.succ_pos i
  simp only [OA.determineLoadState, Nat.add_sub_cancel, if_pos hgt, hprev, eq_self_iff_true,
    if_true]
  simp only [loadCommon]
  have hcond : True ∧ (OA.dataOnStreak data i : ℚ) * (0.25 : ℚ) <
      config.loadMinRuntimeActivation := ⟨trivial, hrun⟩
  rw [if_pos hcond, ite_self]

/-- Slot with the load on, used to witness the amended claim C6. -/
def c6wd0 : SimulationDataPoint := { defaultPoint with loadState := true }

/-- Witness for the amended claim C6 at a concrete input. -/
theorem C6_amended_witness :
    (List.getD [c6wd0] 0 defaultPoint).loadState = true ∧
    (OA.dataOnStreak [c6wd0] 0 : ℚ) * (0.25 : ℚ) < baseConfig.loadMinRuntimeActivation ∧
    OA.determineLoadState 1 [c6wd0] baseConfig defaultPoint = true :=
  ⟨by norm_num [c6wd0, defaultPoint],
    by norm_num [OA.dataOnStreak, c6wd0, defaultPoint, baseConfig],
    C6_amended 0 [c6wd0] baseConfig defaultPoint (by norm_num [c6wd0, defaultPoint])
      (by norm_num [OA.dataOnStreak, c6wd0, defaultPoint, baseConfig])⟩

/-- Configuration of the C6 counterexample: minimal activation runtime of
half an hour, small battery rates, 50 kW load, 200 kW import limit. -/
def c6config : SiteEnergyConfig :=
  { baseConfig with
    maxChargeRate := 1
    maxDischargeRate := 1
    loadMinRuntimeDaily := 0 }

/-- First slot of the C6 counterexample: negative price turns the load on. -/
def c6d0 : SimulationDataPoint :=
  { defaultPoint with
    time := ⟨0, 10, 0⟩
    consumptionPrice := -50
    injectionPrice := 50
    consumption := 100
    soc := 50 }

/-- Second slot of the C6 counterexample: high consumption exceeding
the import limit together with the load. -/
def c6d1 : SimulationDataPoint :=
  { defaultPoint with
    time := ⟨0, 10, 15⟩
    consumptionPrice := 100
    injectionPrice := 50
    consumption := 180
    soc := 5 }

/-- The first slot with the emitted load state written back, as the
simulation loop does. -/
def c6d0on : SimulationDataPoint := { c6d0 with loadState := true }

/-- Claim C6 (counterexample): the decision of slot 0 turns the load on;
with that history the activation runtime at slot 1 is 0.25 h, below the
minimum of 0.5 h, yet the decision emitted for slot 1 has the load off,
because the grid capacity pass turns the load off to respect the import
limit. -/
theorem C6_counterexample :
    (OA.controlCycle 0 [c6d0, c6d1] c6config).loadState = true ∧
    (OA.dataOnStreak [c6d0on, c6d1] 0 : ℚ) * (0.25 : ℚ) < c6config.loadMinRuntimeActivation ∧
    (OA.controlCycle 1 [c6d0on, c6d1] c6config).loadState = false := by
  refine ⟨?_, ?_, ?_⟩
  · norm_num [OA.controlCycle, OA.shouldChargeNow, OA.shouldDischargeNow, chargeBlok4,
      slotsToCheck, deficitStep, getNegativePriceLookaheadHorizon, jsCeil, findNegSlot,
      findNegSlotAux, getAffordablePvGeneration, affordablePred, getPvInverterGeneration,
      OA.determineLoadState, OA.dataOnStreak, loadCommon, sortByKey, insertByKey, fillSelected,
      sameDay, beforeDeadline, OA.calculatePvCurtailment, OA.applyGridCapacityLimits,
      OA.gridTotalPowerFlow, OA.gridLoadPower, OA.importAdjust, OA.importBatteryPower,
      OA.importLoadState, OA.importCurtailment, Rat.floor, List.enum, List.enumFrom,
      c6config, c6d0, c6d1, baseConfig, defaultPoint]
  · norm_num [OA.dataOnStreak, c6d0on, c6d0, defaultPoint, c6config, baseConfig]
  · norm_num [OA.controlCycle, OA.shouldChargeNow, OA.shouldDischargeNow, chargeBlok4,
      slotsToCheck, deficitStep, getNegativePriceLookaheadHorizon, jsCeil, findNegSlot,
      findNegSlotAux, getAffordablePvGeneration, affordablePred, getPvInverterGeneration,
      OA.determineLoadState, OA.dataOnStreak, loadCommon, sortByKey, insertByKey, fillSelected,
      sameDay, beforeDeadline, OA.calculatePvCurtailment, OA.applyGridCapacityLimits,
      OA.gridTotalPowerFlow, OA.gridLoadPower, OA.importAdjust, OA.importBatteryPower,
      OA.importLoadState, OA.importCurtailment, Rat.floor, List.enum, List.enumFrom,
      c6config, c6d0on, c6d0, c6d1, baseConfig, defaultPoint]

/-! ## Claim C2 -/

/-- Modelled from the spec: the claimed clamp of an overrule charge request
"to the rate limit and to battery headroom" - the requested power, capped by
`maxChargeRate` and by the energy up to `maxSoc` spread over one slot. This
follows the spec wording and exists only to be compared with the code. -/
def specOverruleChargePower (current : SimulationDataPoint) (config : SiteEnergyConfig) : ℚ :=
  min (min current.tradingSignalRequestedPower config.maxChargeRate)
    (((config.maxSoc - current.soc) / 100 * config.batteryCapacity) / (0.25 : ℚ))

/-- Slot of the C2 counterexample: overrule requesting 50 kW of charge with
the battery one percent below the maximal SoC. -/
def c2current : SimulationDataPoint :=
  { defaultPoint with
    soc := 94
    tradingSignal := TradingSignal.overrule
    tradingSignalRequestedPower := 50 }

/-- Configuration of the C2 counterexample: small 10 kWh battery, so the
headroom power over one slot is only 0.4 kW. -/
def c2config : SiteEnergyConfig :=
  { baseConfig with
    tradingSignalEnabled := true
    batteryCapacity := 10 }

/-- Claim C2 (counterexample): the overrule charge branch clamps only to the
rate limit: with 0.1 kWh of headroom (0.4 kW over the slot) it still returns
the full requested 50 kW, not the headroom-clamped value of the claim. -/
theorem C2_counterexample :
    CO.shouldChargeNow c2current c2config [c2current] = 50 ∧
    specOverruleChargePower c2current c2config = 2 / 5 ∧
    ¬ CO.shouldChargeNow c2current c2config [c2current] =
        specOverruleChargePower c2current c2config := by
  refine ⟨?_, ?_, ?_⟩
  · norm_num [CO.shouldChargeNow, c2current, c2config, baseConfig, defaultPoint]
  · norm_num [specOverruleChargePower, c2current, c2config, baseConfig, defaultPoint]
  · norm_num [CO.shouldChargeNow, specOverruleChargePower, c2current, c2config, baseConfig,
      defaultPoint]

/-- Claim C2 (amended): with trading signals enabled and an `overrule`
signal, a positive requested power makes the charge evaluator return the
request clamped to the rate limit only (zero when the battery is at or above
`maxSoc`), bypassing all remaining charge logic, while the discharge
evaluator returns zero; symmetrically for a negative request. Battery
headroom enters only through the all-or-nothing SoC bound check, not as a
clamp. -/
theorem C2_amended (current : SimulationDataPoint) (config : SiteEnergyConfig)
    (forecast : List SimulationDataPoint)
    (henabled : config.tradingSignalEnabled = true)
    (hsig : current.tradingSignal = TradingSignal.overrule) :
    (0 < current.tradingSignalRequestedPower →
      CO.shouldChargeNow current config forecast =
        (if current.soc ≥ config.maxSoc then 0
          else min current.tradingSignalRequestedPower config.maxChargeRate) ∧
      CO.shouldDischargeNow current config forecast = 0) ∧
    (current.tradingSignalRequestedPower < 0 →
      CO.shouldDischargeNow current config forecast =
        (if current.soc ≤ config.minSoc then 0
          else min |current.tradingSignalRequestedPower| config.maxDischargeRate) ∧
      CO.shouldChargeNow current config forecast = 0) := by
  constructor
  · intro hreq
    constructor
    · unfold CO.shouldChargeNow
      rw [if_pos henabled, hsig]
      dsimp only
      rw [if_pos hreq]
    · unfold CO.shouldDischargeNow
      rw [if_pos henabled, hsig]
      dsimp only
      rw [if_neg (not_lt.mpr hreq.le), if_pos hreq]
  · intro hreq
    constructor
    · unfold CO.shouldDischargeNow
      rw [if_pos henabled, hsig]
      dsimp only
      rw [if_pos hreq]
    · unfold CO.shouldChargeNow
      rw [if_pos henabled, hsig]
      dsimp only
      rw [if_neg (not_lt.mpr hreq.le), if_pos hreq]

/-- Slot used to witness the amended claim C2. -/
def c2wcurrent : SimulationDataPoint :=
  { defaultPoint with
    soc := 50
    tradingSignal := TradingSignal.overrule
    tradingSignalRequestedPower := 30 }

/-- Configuration used to witness the amended claim C2. -/
def c2wconfig : SiteEnergyConfig := { baseConfig with tradingSignalEnabled := true }

/-- Witness for the amended claim C2 at a concrete input. -/
theorem C2_amended_witness :
    c2wconfig.tradingSignalEnabled = true ∧
    c2wcurrent.tradingSignal = TradingSignal.overrule ∧
    0 < c2wcurrent.tradingSignalRequestedPower ∧
    (CO.shouldChargeNow c2wcurrent c2wconfig [] =
        (if c2wcurrent.soc ≥ c2wconfig.maxSoc then 0
          else min c2wcurrent.tradingSignalRequestedPower c2wconfig.maxChargeRate) ∧
      CO.shouldDischargeNow c2wcurrent c2wconfig [] = 0) :=
  ⟨rfl, rfl, by norm_num [c2wcurrent, defaultPoint],
    (C2_amended c2wcurrent c2wconfig [] rfl rfl).1 (by norm_num [c2wcurrent, defaultPoint])⟩

/-! ## Claim C1 -/

/-- Configuration of the C1 counterexample: import and export limits of
10 kW, a 50 kW load and a 1 kW charge rate. -/
def c1config : SiteEnergyConfig :=
  { baseConfig with
    maxChargeRate := 1
    maxDischargeRate := 1
    gridCapacityImportLimit := 10
    gridCapacityExportLimit := 10 }

/-- Slot of the C1 counterexample: negative price, 5 kW baseline consumption
and 20 kW of PV. -/
def c1current : SimulationDataPoint :=
  { defaultPoint with
    time := ⟨0, 10, 0⟩
    consumptionPrice := -50
    injectionPrice := 50
    consumption := 5
    pvGeneration := 20
    soc := 50 }

/-- Claim C1 (counterexample): baseline consumption 5 kW lies within
`[-10, 10]`, yet after the grid capacity pass the emitted decision has net
grid flow -15 kW, breaching the export limit: the import branch turns the
load off but still measures the flow with the original load power, so it
over-decreases curtailment. -/
theorem C1_counterexample :
    -c1config.gridCapacityExportLimit ≤ c1current.consumption ∧
    c1current.consumption ≤ c1config.gridCapacityImportLimit ∧
    netGridFlow c1current (OA.controlCycle 0 [c1current] c1config) c1config =
      -15 ∧
    netGridFlow c1current (OA.controlCycle 0 [c1current] c1config) c1config <
      -c1config.gridCapacityExportLimit := by
  refine ⟨?_, ?_, ?_, ?_⟩
  · norm_num [c1config, c1current, baseConfig, defaultPoint]
  · norm_num [c1config, c1current, baseConfig, defaultPoint]
  · norm_num [netGridFlow, OA.controlCycle, OA.shouldChargeNow, OA.determineLoadState,
      OA.dataOnStreak, loadCommon, sortByKey, insertByKey, fillSelected, sameDay,
      beforeDeadline, getAffordablePvGeneration, affordablePred, getPvInverterGeneration,
      OA.calculatePvCurtailment, OA.applyGridCapacityLimits, OA.gridTotalPowerFlow,
      OA.gridLoadPower, OA.importAdjust, OA.importBatteryPower, OA.importLoadState,
      OA.importCurtailment, Rat.floor, List.enum, List.enumFrom, c1config, c1current,
      baseConfig, defaultPoint]
  · norm_num [netGridFlow, OA.controlCycle, OA.shouldChargeNow, OA.determineLoadState,
      OA.dataOnStreak, loadCommon, sortByKey, insertByKey, fillSelected, sameDay,
      beforeDeadline, getAffordablePvGeneration, affordablePred, getPvInverterGeneration,
      OA.calculatePvCurtailment, OA.applyGridCapacityLimits, OA.gridTotalPowerFlow,
      OA.gridLoadPower, OA.importAdjust, OA.importBatteryPower, OA.importLoadState,
      OA.importCurtailment, Rat.floor, List.enum, List.enumFrom, c1config, c1current,
      baseConfig, defaultPoint]

/-- Arithmetic shape of the import branch with a zero load term: starting
from a flow above the import limit, the battery step and the curtailment
step leave the net flow between the import limit and `max imp c`. -/
theorem import_flow_bounds (c b pv k imp mn mx b1 k3 : ℚ)
    (hb1 : b1 = if b > 0 then b - min (c + b - pv + k - imp) b else b)
    (hk3 : k3 = if c + b1 - pv + k - imp > 0 ∧ k > 0 then
        k - min (c + b1 - pv + k - imp) k else k)
    (hk0 : 0 ≤ k) (hpv : 0 ≤ pv)
    (h2 : c + b - pv + k > imp)
    (hmn0 : mn ≤ 0) (hmx1 : imp ≤ mx) (hmx2 : c ≤ mx) (himp : 0 ≤ imp) :
    mn ≤ c + b1 - pv + k3 ∧ c + b1 - pv + k3 ≤ mx := by
  have hb1q : (b1 = b - (c + b - pv + k - imp) ∧ c + b - pv + k - imp ≤ b) ∨
      (0 < b ∧ b1 = 0 ∧ b < c + b - pv + k - imp) ∨ (b ≤ 0 ∧ b1 = b) := by
    split_ifs at hb1 with hbr
    · rcases min_cases (c + b - pv + k - imp) b with ⟨hm, hle⟩ | ⟨hm, hlt⟩
      · exact Or.inl ⟨by rw [hb1, hm], hle⟩
      · exact Or.inr (Or.inl ⟨hbr, by rw [hb1, hm]; ring, hlt⟩)
    · exact Or.inr (Or.inr ⟨not_lt.mp hbr, hb1⟩)
  have hk3q : (c + b1 - pv + k - imp > 0 ∧ 0 < k ∧
        k3 = k - min (c + b1 - pv + k - imp) k) ∨
      (c + b1 - pv + k - imp ≤ 0 ∧ k3 = k) ∨ (k ≤ 0 ∧ k3 = k) := by
    split_ifs at hk3 with hcc
    · exact Or.inl ⟨hcc.1, hcc.2, hk3⟩
    · rcases not_and_or.mp hcc with hA | hB
      · exact Or.inr (Or.inl ⟨not_lt.mp hA, hk3⟩)
      · exact Or.inr (Or.inr ⟨not_lt.mp hB, hk3⟩)
  have hG : imp ≤ c + b1 - pv + k := by
    rcases hb1q with ⟨he, hle⟩ | ⟨hb0, he, hlt⟩ | ⟨hb0, he⟩ <;> linarith
  rcases hk3q with ⟨hA, hB, he3⟩ | ⟨hA, he3⟩ | ⟨hA, he3⟩
  · rcases min_cases (c + b1 - pv + k - imp) k with ⟨hm2, hm2'⟩ | ⟨hm2, hm2'⟩
    · constructor <;> linarith
    · rcases hb1q with ⟨he, hle⟩ | ⟨hb0, he, hlt⟩ | ⟨hb0, he⟩ <;> constructor <;> linarith
  · constructor <;> linarith
  · rcases hb1q with ⟨he, hle⟩ | ⟨hb0, he, hlt⟩ | ⟨hb0, he⟩ <;> constructor <;> linarith

/-- Arithmetic shape of the export branch with a zero load term: starting
from an export above the export limit, the battery step and the curtailment
step leave the net flow between `min (-e) c` and `mx ≥ 0`. -/
theorem export_flow_bounds (c b pv k e mcr mn mx b1 k3 : ℚ)
    (hb1 : b1 = if b < mcr then b + min (-(c + b - pv + k) - e) (mcr - b) else b)
    (hk3 : k3 = if |min 0 (c + b1 - pv + k)| - e > 0 then
        k + min (|min 0 (c + b1 - pv + k)| - e) (max 0 (pv - k)) else k)
    (hkpv : k ≤ pv) (hk0 : 0 ≤ k)
    (h3 : c + b - pv + k < 0) (h4 : -(c + b - pv + k) > e)
    (hmn1 : mn ≤ -e) (hmn2 : mn ≤ c) (hmx0 : 0 ≤ mx) (hexp : 0 ≤ e) (hmcr : 0 ≤ mcr) :
    mn ≤ c + b1 - pv + k3 ∧ c + b1 - pv + k3 ≤ mx := by
  have hb1q : (mcr - b ≤ -(c + b - pv + k) - e ∧ b1 = mcr) ∨
      (b1 = b + (-(c + b - pv + k) - e)) ∨ (mcr ≤ b ∧ b1 = b) := by
    split_ifs at hb1 with hbr
    · rcases min_cases (-(c + b - pv + k) - e) (mcr - b) with ⟨hm, _⟩ | ⟨hm, hlt⟩
      · exact Or.inr (Or.inl (by rw [hb1, hm]))
      · exact Or.inl ⟨hlt.le, by rw [hb1, hm]; ring⟩
    · exact Or.inr (Or.inr ⟨not_lt.mp hbr, hb1⟩)
  have hG : c + b1 - pv + k ≤ -e := by
    rcases hb1q with ⟨hle, he⟩ | he | ⟨hge, he⟩ <;> linarith
  have hG0 : c + b1 - pv + k ≤ 0 := by linarith
  rw [min_eq_right hG0, abs_of_nonpos hG0, max_eq_right (sub_nonneg.mpr hkpv)] at hk3
  split_ifs at hk3 with hc
  · rcases min_cases (-(c + b1 - pv + k) - e) (pv - k) with ⟨hm2, hm2'⟩ | ⟨hm2, hm2'⟩
    · constructor <;> linarith
    · rcases hb1q with ⟨hle, he⟩ | he | ⟨hge, he⟩ <;> constructor <;> linarith
  · constructor <;> linarith

/-- Claim C1 (amended): restricted to configurations whose controllable load
draws no power (`loadNominalPower = 0`), with nonnegative PV, curtailment
within `[0, pvGeneration]`, and nonnegative charge rate and limits, the net
grid flow of the decision returned by `applyGridCapacityLimits` lies within
`[min (-exportLimit) consumption, max importLimit consumption]`: within the
limits whenever baseline consumption is, and breaching by at most the
baseline-consumption-driven amount otherwise. The counterexample shows the
load term makes the original claim false. -/
theorem C1_amended (current : SimulationDataPoint) (decision : ControlDecision)
    (config : SiteEnergyConfig)
    (hload : config.loadNominalPower = 0)
    (hpv : 0 ≤ current.pvGeneration)
    (hcurt0 : 0 ≤ decision.curtailment)
    (hcurtpv : decision.curtailment ≤ current.pvGeneration)
    (hmcr : 0 ≤ config.maxChargeRate)
    (himp : 0 ≤ config.gridCapacityImportLimit)
    (hexp : 0 ≤ config.gridCapacityExportLimit) :
    min (-config.gridCapacityExportLimit) current.consumption ≤
      netGridFlow current (OA.applyGridCapacityLimits current decision config) config ∧
    netGridFlow current (OA.applyGridCapacityLimits current decision config) config ≤
      max config.gridCapacityImportLimit current.consumption := by
  have hminl := min_le_left (-config.gridCapacityExportLimit) current.consumption
  have hminr := min_le_right (-config.gridCapacityExportLimit) current.consumption
  have hmaxl := le_max_left config.gridCapacityImportLimit current.consumption
  have hmaxr := le_max_right config.gridCapacityImportLimit current.consumption
  simp only [OA.applyGridCapacityLimits, OA.gridTotalPowerFlow, OA.gridLoadPower, hload,
    ite_self, add_zero]
  split_ifs with h1 h2 h3 h4
  · -- import branch
    simp only [netGridFlow, OA.importAdjust, OA.importBatteryPower, OA.importCurtailment,
      OA.gridTotalPowerFlow, OA.gridLoadPower, hload, ite_self, add_zero]
    exact import_flow_bounds _ _ _ _ _ _ _ _ _ rfl rfl hcurt0 hpv h2
      (by linarith) hmaxl hmaxr himp
  · -- importing within the limit
    simp only [netGridFlow, hload, ite_self, add_zero]
    constructor <;> linarith
  · -- export branch
    rw [abs_of_neg h3] at h4
    simp only [netGridFlow, OA.exportAdjust, OA.exportBatteryPower, OA.exportCurtailment,
      OA.gridTotalPowerFlow, OA.gridLoadPower, hload, ite_self, add_zero, abs_of_neg h3]
    exact export_flow_bounds _ _ _ _ _ _ _ _ _ _ rfl rfl hcurtpv hcurt0 h3 h4
      hminl hminr (le_trans himp hmaxl) hexp hmcr
  · -- exporting within the limit
    rw [abs_of_neg h3] at h4
    simp only [netGridFlow, hload, ite_self, add_zero]
    constructor <;> linarith [not_lt.mp h4]
  · -- flow is zero
    simp only [netGridFlow, hload, ite_self, add_zero]
    constructor <;> linarith

/-- Configuration used to witness the amended claim C1. -/
def c1wconfig : SiteEnergyConfig := { baseConfig with loadNominalPower := 0 }

/-- Slot used to witness the amended claim C1. -/
def c1wcurrent : SimulationDataPoint :=
  { defaultPoint with consumption := 5, pvGeneration := 2 }

/-- Decision used to witness the amended claim C1. -/
def c1wdecision : ControlDecision :=
  { batteryPower := 3, curtailment := 1, loadState := false }

/-- Witness for the amended claim C1 at a concrete input. -/
theorem C1_amended_witness :
    c1wconfig.loadNominalPower = 0 ∧ 0 ≤ c1wcurrent.pvGeneration ∧
    0 ≤ c1wdecision.curtailment ∧ c1wdecision.curtailment ≤ c1wcurrent.pvGeneration ∧
    0 ≤ c1wconfig.maxChargeRate ∧ 0 ≤ c1wconfig.gridCapacityImportLimit ∧
    0 ≤ c1wconfig.gridCapacityExportLimit ∧
    (min (-c1wconfig.gridCapacityExportLimit) c1wcurrent.consumption ≤
        netGridFlow c1wcurrent (OA.applyGridCapacityLimits c1wcurrent c1wdecision c1wconfig)
          c1wconfig ∧
      netGridFlow c1wcurrent (OA.applyGridCapacityLimits c1wcurrent c1wdecision c1wconfig)
          c1wconfig ≤
        max c1wconfig.gridCapacityImportLimit c1wcurrent.consumption) :=
  ⟨rfl, by norm_num [c1wcurrent, defaultPoint], by norm_num [c1wdecision],
    by norm_num [c1wdecision, c1wcurrent, defaultPoint],
    by norm_num [c1wconfig, baseConfig], by norm_num [c1wconfig, baseConfig],
    by norm_num [c1wconfig, baseConfig],
    C1_amended c1wcurrent c1wdecision c1wconfig rfl
      (by norm_num [c1wcurrent, defaultPoint]) (by norm_num [c1wdecision])
      (by norm_num [c1wdecision, c1wcurrent, defaultPoint])
      (by norm_num [c1wconfig, baseConfig]) (by norm_num [c1wconfig, baseConfig])
      (by norm_num [c1wconfig, baseConfig])⟩

/-! ## Claim C9 -/

/-- Slot for the C9 scenario: no consumption, 100 kW of PV. -/
def c9current : SimulationDataPoint :=
  { defaultPoint with consumption := 0, pvGeneration := 100 }

/-- Decision entering the grid pass in the C9 scenario: discharging 10 kW. -/
def c9decision : ControlDecision :=
  { batteryPower := -10, curtailment := 0, loadState := false }

/-- Configuration for the C9 scenario: export limit 20 kW, charge rate 50 kW. -/
def c9config : SiteEnergyConfig :=
  { baseConfig with gridCapacityExportLimit := 20, loadNominalPower := 0 }

/-- Claim C9: on a concrete input whose net export exceeds the export limit
while the battery is discharging, the export branch of
`applyGridCapacityLimits` raises the battery power from -10 to the strictly
positive value 50 - the pass reverses the battery from discharging to
charging. -/
theorem C9_export_branch_reverses_discharge :
    c9decision.batteryPower < 0 ∧
    netGridFlow c9current c9decision c9config < -c9config.gridCapacityExportLimit ∧
    (OA.applyGridCapacityLimits c9current c9decision c9config).batteryPower = 50 ∧
    0 < (OA.applyGridCapacityLimits c9current c9decision c9config).batteryPower := by
  refine ⟨by norm_num [c9decision], ?_, ?_, ?_⟩
  · norm_num [netGridFlow, c9current, c9decision, c9config, baseConfig, defaultPoint]
  · norm_num [OA.applyGridCapacityLimits, OA.gridTotalPowerFlow, OA.gridLoadPower,
      OA.exportAdjust, OA.exportBatteryPower, c9current, c9decision, c9config, baseConfig,
      defaultPoint]
  · norm_num [OA.applyGridCapacityLimits, OA.gridTotalPowerFlow, OA.gridLoadPower,
      OA.exportAdjust, OA.exportBatteryPower, c9current, c9decision, c9config, baseConfig,
      defaultPoint]

/-! ## Claim C10 -/

/-- Slot for the C10 scenario: 100 kW consumption, no PV. -/
def c10current : SimulationDataPoint :=
  { defaultPoint with consumption := 100, pvGeneration := 0 }

/-- Decision entering the grid pass in the C10 scenario: load on, 30 kW of
curtailment, no battery power. -/
def c10decision : ControlDecision :=
  { batteryPower := 0, curtailment := 30, loadState := true }

/-- Configuration for the C10 scenario: import limit 140 kW, 50 kW load. -/
def c10config : SiteEnergyConfig :=
  { baseConfig with gridCapacityImportLimit := 140, loadNominalPower := 50 }

/-- Claim C10: in the import branch the flow used for the curtailment
decrease is computed with the load power of the original decision even after
the load has just been turned off. On this concrete input the pass turns the
load off, after which the actual net flow with the original curtailment
(100 + 0 + 0 - 0 + 30 = 130) is already below the import limit 140, yet the
pass still decreases curtailment from 30 to 0. -/
theorem C10_phantom_load_curtailment :
    (OA.applyGridCapacityLimits c10current c10decision c10config).loadState = false ∧
    c10current.consumption + 0 + c10decision.batteryPower - c10current.pvGeneration
        + c10decision.curtailment ≤ c10config.gridCapacityImportLimit ∧
    0 < c10decision.curtailment ∧
    (OA.applyGridCapacityLimits c10current c10decision c10config).curtailment = 0 := by
  refine ⟨?_, ?_, ?_, ?_⟩
  · norm_num [OA.applyGridCapacityLimits, OA.gridTotalPowerFlow, OA.gridLoadPower,
      OA.importAdjust, OA.importBatteryPower, OA.importLoadState, c10current, c10decision,
      c10config, baseConfig, defaultPoint]
  · norm_num [c10current, c10decision, c10config, baseConfig, defaultPoint]
  · norm_num [c10decision]
  · norm_num [OA.applyGridCapacityLimits, OA.gridTotalPowerFlow, OA.gridLoadPower,
      OA.importAdjust, OA.importBatteryPower, OA.importLoadState, OA.importCurtailment,
      c10current, c10decision, c10config, baseConfig, defaultPoint]

end EnergyOpt
